import Mathlib

/-!
# SeaExplorer simulation engine: shallow embedding and verification

This file embeds the core game-loop/update engine of the SeaExplorer
(Seaquest) repository (`src/components/TouchControls.tsx`, the `SeaquestGame`
component) into Lean and proves properties of it.

Modelling conventions:
* JavaScript `number` is modelled as `ℚ` (the claims under study concern
  exact flooring/capping/threshold comparisons, not float rounding).
* `Math.random()` is modelled as an injectable oracle `Env.rand : ℕ → ℚ`
  together with an explicit draw counter threaded through every function,
  one draw per source `Math.random()` call, in source evaluation order.
* `Math.sin`, `Math.cos`, `Math.pow` and `Math.PI` are abstract members of
  `Env` (no claim depends on their values).
* Sound calls (`playSound`/`stopSound`), `console.log` and rendering are
  state-free collaborators and are omitted; the `setTimeout` respawn in
  `updateEnemies` is a detached deferred effect that does not run inside the
  synchronous tick and is therefore not part of the tick function.
* JavaScript `for (x of arr)` loops that reassign the underlying array via
  `filter(y => y !== x)` remove at most the current element; they are
  modelled as structural recursion over the captured list with an
  accumulator of kept (mutated-in-place) elements.
* Object-identity removal of a harpoon (`filter(h => h !== harpoon)`) is
  modelled as removal at the found index (`List.eraseIdx`), matching
  reference semantics.
-/

namespace SeaExplorer

/-- Colors are cosmetic strings; never branched on by the engine. -/
abbrev Color := String

/-- External mathematical/randomness collaborators of the engine:
`Math.sin`, `Math.cos`, `Math.pow`, `Math.PI`, `Math.random` (as an oracle
indexed by draw counter) and the construction of `hsl(...)` color strings. -/
structure Env where
  sin : ℚ → ℚ
  cos : ℚ → ℚ
  pow : ℚ → ℚ → ℚ
  pi : ℚ
  rand : ℕ → ℚ
  hsl : ℚ → ℚ → ℚ → Color

/-- The random oracle produces values in `[0, 1)` like `Math.random()`. -/
def Env.Ok (env : Env) : Prop := ∀ n, 0 ≤ env.rand n ∧ env.rand n < 1

-- Canvas dimensions fixed by the component (`<canvas width={1408} height={768}>`).
def canvasW : ℚ := 1408
def canvasH : ℚ := 768

-- Source constants.
def MAX_OXYGEN : ℚ := 300
def COMBO_TIMEOUT_FRAMES : ℚ := 180
def GRAVITY : ℚ := (2/100)
def PARTICLE_LIFESPAN : ℚ := 60
def RAPID_FIRE_THRESHOLD_FACTOR : ℚ := (5/10)
def MAX_PLAYER_LIVES : ℚ := 10
def ENEMY_SHARK_CHANCE : ℚ := (5/10)

/-- Iteration count of a JS loop `for (let i = 0; i < count; i++)` for a
(possibly fractional) numeric bound. -/
def iterCount (q : ℚ) : ℕ := q.ceil.toNat

-- --- Entity records (mirroring the TypeScript interfaces) ---

structure Rect where
  x : ℚ
  y : ℚ
  width : ℚ
  height : ℚ
  deriving DecidableEq

structure Treasure where
  x : ℚ
  y : ℚ
  width : ℚ
  height : ℚ
  color : Color
  value : ℚ
  angle : ℚ
  rotationSpeed : ℚ
  dy : ℚ
  targetY : ℚ
  isFalling : Bool
  deriving DecidableEq

structure Heart where
  x : ℚ
  y : ℚ
  width : ℚ
  height : ℚ
  color : Color
  value : ℚ
  angle : ℚ
  rotationSpeed : ℚ
  dy : ℚ
  targetY : ℚ
  isFalling : Bool
  deriving DecidableEq

structure Enemy where
  x : ℚ
  y : ℚ
  width : ℚ
  height : ℚ
  color : Color
  dx : ℚ
  amplitude : ℚ
  frequency : ℚ
  offsetY : ℚ
  baseY : ℚ
  health : ℚ
  maxHealth : ℚ
  isShark : Bool
  aggressionLevel : ℚ
  deriving DecidableEq

structure Crab where
  x : ℚ
  y : ℚ
  width : ℚ
  height : ℚ
  dx : ℚ
  color : Color
  speed : ℚ
  deriving DecidableEq

structure OxygenBubble where
  x : ℚ
  y : ℚ
  radius : ℚ
  speed : ℚ
  color : Color
  oxygenAmount : ℚ
  offset : ℚ
  isLarge : Bool
  pulse : Option ℚ
  deriving DecidableEq

structure Harpoon where
  x : ℚ
  y : ℚ
  dx : ℚ
  dy : ℚ
  length : ℚ
  width : ℚ
  angle : ℚ
  lifespan : ℚ
  deriving DecidableEq

structure Particle where
  x : ℚ
  y : ℚ
  dx : ℚ
  dy : ℚ
  radius : ℚ
  color : Color
  lifespan : ℚ
  initialLifespan : ℚ
  deriving DecidableEq

structure OxygenBonus where
  x : ℚ
  y : ℚ
  width : ℚ
  height : ℚ
  value : ℚ
  angle : ℚ
  rotationSpeed : ℚ
  dy : ℚ
  fullyVisible : Bool
  alpha : ℚ
  lifespan : ℚ
  deriving DecidableEq

inductive Facing where
  | left
  | right
  deriving DecidableEq

structure Diver where
  x : ℚ
  y : ℚ
  width : ℚ
  height : ℚ
  speed : ℚ
  baseSpeed : ℚ
  dx : ℚ
  dy : ℚ
  color : Color
  oxygenDepletionRate : ℚ
  size : ℚ
  canFire : Bool
  weaponCooldown : ℚ
  weaponCooldownMax : ℚ
  facingDirection : Facing
  comboCounter : ℚ
  comboTimer : ℚ
  isShieldActive : Bool
  shieldTimer : ℚ
  deriving DecidableEq

structure Keys where
  arrowRight : Bool
  arrowLeft : Bool
  arrowUp : Bool
  arrowDown : Bool
  space : Bool
  deriving DecidableEq

/-- The aggregate world state held in the `gameInstance` ref, plus the
recorded final score (the `finalScore` React state written by `endGame`). -/
structure Game where
  gameStarted : Bool
  gameOver : Bool
  score : ℚ
  oxygen : ℚ
  level : ℚ
  playerLives : ℚ
  hearts : List Heart
  treasures : List Treasure
  enemies : List Enemy
  crabs : List Crab
  oxygenBubbles : List OxygenBubble
  harpoons : List Harpoon
  particles : List Particle
  oxygenBonus : List OxygenBonus
  oxygenGenerator : Rect
  diver : Diver
  keys : Keys
  lastUpdateTime : ℚ
  finalScore : ℚ
  deriving DecidableEq

def Treasure.rect (t : Treasure) : Rect := ⟨t.x, t.y, t.width, t.height⟩
def Heart.rect (h : Heart) : Rect := ⟨h.x, h.y, h.width, h.height⟩
def Enemy.rect (e : Enemy) : Rect := ⟨e.x, e.y, e.width, e.height⟩
def Crab.rect (c : Crab) : Rect := ⟨c.x, c.y, c.width, c.height⟩
def OxygenBonus.rect (b : OxygenBonus) : Rect := ⟨b.x, b.y, b.width, b.height⟩
def Diver.rect (d : Diver) : Rect := ⟨d.x, d.y, d.width, d.height⟩

-- --- Collision Detection ---

/-- `isColliding(obj1, obj2)`.  `obj1IsDiver` records whether `obj1` is the
player craft (the source compares object identity `obj1 === game.diver`),
which shrinks its hitbox by 10% per axis; `obj2IsShark` records whether
`obj2` is a shark enemy, which adds a 1-unit outward margin. -/
def isColliding (obj1 : Rect) (obj1IsDiver : Bool) (obj2 : Rect) (obj2IsShark : Bool) : Bool :=
  let extraMargin : ℚ := if obj2IsShark then 1 else 0
  let widthReduction : ℚ := if obj1IsDiver then obj1.width * (1/10) else 0
  let heightReduction : ℚ := if obj1IsDiver then obj1.height * (1/10) else 0
  let obj1Width := obj1.width - widthReduction
  let obj1Height := obj1.height - heightReduction
  let obj1X := obj1.x + widthReduction / 2
  let obj1Y := obj1.y + heightReduction / 2
  decide (obj1X < obj2.x + obj2.width + extraMargin) &&
  decide (obj1X + obj1Width > obj2.x - extraMargin) &&
  decide (obj1Y < obj2.y + obj2.height + extraMargin) &&
  decide (obj1Y + obj1Height > obj2.y - extraMargin)

/-- `isCollidingCircle(obj, circle)`: closest-point-on-rectangle distance
test against an oxygen bubble; diver hitbox shrunk by 10% as above. -/
def isCollidingCircle (obj : Rect) (objIsDiver : Bool) (circle : OxygenBubble) : Bool :=
  let widthReduction : ℚ := if objIsDiver then obj.width * (1/10) else 0
  let heightReduction : ℚ := if objIsDiver then obj.height * (1/10) else 0
  let objWidth := obj.width - widthReduction
  let objHeight := obj.height - heightReduction
  let objX := obj.x + widthReduction / 2
  let objY := obj.y + heightReduction / 2
  let closestX := max objX (min circle.x (objX + objWidth))
  let closestY := max objY (min circle.y (objY + objHeight))
  let distanceX := circle.x - closestX
  let distanceY := circle.y - closestY
  let distanceSquared := distanceX * distanceX + distanceY * distanceY
  decide (distanceSquared < circle.radius * circle.radius)

-- --- Entity Factories (`generate*`) and particle bursts ---

/-- `generateHeart(position)`: spawns a falling heart unless the player is
already at maximum lives (in which case nothing happens and no random draw
is made). -/
def generateHeartEntity (env : Env) (pos : ℚ × ℚ) (k : ℕ) : Heart :=
  let stopY := canvasH - 25 - env.rand k * 10
  { x := max 10 (min (canvasW - 10) pos.1)
    y := pos.2
    width := 20
    height := 18
    color := "#ff3377"
    value := 1
    angle := env.rand (k+1) * env.pi * 2
    rotationSpeed := (env.rand (k+2) - (5/10)) * (5/100)
    dy := (3/10)
    targetY := stopY
    isFalling := true }

def generateHeart (env : Env) (pos : ℚ × ℚ) (g : Game) (k : ℕ) : Game × ℕ :=
  if g.playerLives ≥ MAX_PLAYER_LIVES then (g, k)
  else ({ g with hearts := g.hearts ++ [generateHeartEntity env pos k] }, k + 3)

/-- The treasure record built by one `generateTreasures` loop iteration
(after the `startX`/`startY` draws have been resolved). -/
def generateTreasureEntity (env : Env) (startX startY : ℚ) (k : ℕ) : Treasure :=
  let stopY := canvasH - 25 - env.rand k * 10
  { x := max 10 (min (canvasW - 10) startX)
    y := startY
    width := 16
    height := 20
    color := "#ffff00"
    value := 15 + ((env.rand (k+1) * 10).floor : ℚ)
    angle := env.rand (k+2) * env.pi * 2
    rotationSpeed := (env.rand (k+3) - (5/10)) * (1/10)
    dy := (5/10)
    targetY := stopY
    isFalling := true }

/-- One iteration of the `generateTreasures` loop body. -/
def generateTreasuresLoop (env : Env) (pos : Option (ℚ × ℚ)) :
    ℕ → Game → ℕ → Game × ℕ
  | 0, g, k => (g, k)
  | n+1, g, k =>
    let (startX, k) :=
      match pos with
      | some p => (p.1, k)
      | none => (env.rand k * (canvasW - 20), k + 1)
    let startY : ℚ := match pos with | some p => p.2 | none => 50
    generateTreasuresLoop env pos n
      { g with treasures := g.treasures ++ [generateTreasureEntity env startX startY k] }
      (k + 4)

/-- `generateTreasures(count, position?)`. -/
def generateTreasures (env : Env) (count : ℚ) (pos : Option (ℚ × ℚ)) (g : Game) (k : ℕ) :
    Game × ℕ :=
  generateTreasuresLoop env pos (iterCount count) g k

/-- The enemy record built by one `generateEnemies` loop iteration (after
the `isSmallSize`/`isShark` draws have been resolved at draw index `k`). -/
def generateEnemyEntity (env : Env) (level : ℚ) (isSmallSize isShark : Bool) (k : ℕ) :
    Enemy :=
  let size : ℚ :=
    if isShark then 35 + env.rand k * 15
    else if isSmallSize then 20 + env.rand k * 10
    else 30 + env.rand k * 15
  let startY := 50 + env.rand (k+1) * (canvasH - 150)
  let maxHealth : ℚ := if isShark then 3 else if ¬isSmallSize then 2 else 1
  let color :=
    if isShark then env.hsl (env.rand (k+2) * 20 + 10) 70 40
    else env.hsl (env.rand (k+2) * 60 + 180) 70 60
  let baseSpeed : ℚ :=
    if isShark then (15/10) + env.rand (k+3) * (15/10) else 1 + env.rand (k+3) * 1
  let levelFactor := 1 + (level - 1) * (2/10)
  let aggressionLevel : ℚ := if isShark then 1 + (level - 1) * (3/10) else 1
  let startFromLeft := env.rand (k+4) < (5/10)
  let xPosition := if startFromLeft then -size else canvasW + size
  let direction : ℚ := if startFromLeft then 1 else -1
  { x := xPosition
    y := startY
    baseY := startY
    width := size
    height := size * (6/10)
    color := color
    dx := baseSpeed * levelFactor * direction
    amplitude := 5 + env.rand (k+5) * 15
    frequency := (1/1000) + env.rand (k+6) * (3/1000)
    offsetY := env.rand (k+7) * env.pi * 2
    health := maxHealth
    maxHealth := maxHealth
    isShark := isShark
    aggressionLevel := aggressionLevel }

/-- One iteration of the `generateEnemies` loop body. -/
def generateEnemiesLoop (env : Env) (level : ℚ) : ℕ → Game → ℕ → Game × ℕ
  | 0, g, k => (g, k)
  | n+1, g, k =>
    let isSmallSize := env.rand k < (5/10)
    -- `isSmallSize && Math.random() < ENEMY_SHARK_CHANCE`: the second draw
    -- happens only when `isSmallSize` holds (JS short-circuit).
    let (isShark, k) :=
      if isSmallSize then (decide (env.rand (k+1) < ENEMY_SHARK_CHANCE), k + 2)
      else (false, k + 1)
    generateEnemiesLoop env level n
      { g with enemies := g.enemies ++ [generateEnemyEntity env level isSmallSize isShark k] }
      (k + 8)

/-- `generateEnemies(count)`: skips everything when the soft hostile cap
`enemies.length > 2 + floor(level/2)` is exceeded. -/
def generateEnemies (env : Env) (count : ℚ) (g : Game) (k : ℕ) : Game × ℕ :=
  if ((g.enemies.length : ℚ)) > 2 + ((g.level / 2).floor : ℚ) then (g, k)
  else generateEnemiesLoop env g.level (iterCount count) g k

/-- The small-bubble record built by one `generateOxygenBubbles` loop
iteration, spawned from the oxygen generator `gen`. -/
def generateOxygenBubbleEntity (env : Env) (gen : Rect) (k : ℕ) : OxygenBubble :=
  let radius := 12 + env.rand k * 12
  { x := gen.x + env.rand (k+1) * gen.width
    y := gen.y
    radius := radius
    speed := (8/10) + env.rand (k+2) * (12/10)
    color := "rgba(255, 255, 255, 0.7)"
    oxygenAmount := 15 + env.rand (k+3) * 20
    offset := env.rand (k+4) * env.pi * 2
    isLarge := false
    pulse := none }

/-- One iteration of the `generateOxygenBubbles` loop body. -/
def generateOxygenBubblesLoop (env : Env) : ℕ → Game → ℕ → Game × ℕ
  | 0, g, k => (g, k)
  | n+1, g, k =>
    generateOxygenBubblesLoop env n
      { g with oxygenBubbles :=
          g.oxygenBubbles ++ [generateOxygenBubbleEntity env g.oxygenGenerator k] }
      (k + 5)

/-- `generateOxygenBubbles(count)`. -/
def generateOxygenBubbles (env : Env) (count : ℚ) (g : Game) (k : ℕ) : Game × ℕ :=
  generateOxygenBubblesLoop env (iterCount count) g k

/-- The large-bubble record built by `generateLargeOxygenBubble`. -/
def generateLargeOxygenBubbleEntity (env : Env) (gen : Rect) (k : ℕ) : OxygenBubble :=
  let radius := 30 + env.rand k * 15
  { x := gen.x + gen.width / 2 + (env.rand (k+1) * 20 - 10)
    y := gen.y
    radius := radius
    speed := (6/10) + env.rand (k+2) * (6/10)
    color := "rgba(100, 200, 255, 0.8)"
    oxygenAmount := 60 + env.rand (k+3) * 40
    offset := env.rand (k+4) * env.pi * 2
    isLarge := true
    pulse := some 0 }

/-- `generateLargeOxygenBubble()`. -/
def generateLargeOxygenBubble (env : Env) (g : Game) (k : ℕ) : Game × ℕ :=
  ({ g with oxygenBubbles :=
      g.oxygenBubbles ++ [generateLargeOxygenBubbleEntity env g.oxygenGenerator k] }, k + 5)

/-- The bonus record built by `generateOxygenBonus`. -/
def generateOxygenBonusEntity (env : Env) (k : ℕ) : OxygenBonus :=
  let x := 50 + env.rand k * (canvasW - 100)
  let y := canvasH - 50
  { x := x
    y := y
    width := 50
    height := 50
    value := 150
    angle := 0
    rotationSpeed := (1/100) + env.rand (k+1) * (2/100)
    dy := -(8/10)
    fullyVisible := false
    alpha := 0
    lifespan := 800 }

/-- `generateOxygenBonus()`: rare power-up rising from the floor. -/
def generateOxygenBonus (env : Env) (g : Game) (k : ℕ) : Game × ℕ :=
  ({ g with oxygenBonus := g.oxygenBonus ++ [generateOxygenBonusEntity env k] }, k + 2)

/-- The crab record built by `generateCrab`. -/
def generateCrabEntity (env : Env) (k : ℕ) : Crab :=
  let startFromLeft := env.rand k < (5/10)
  let speed := (8/10) + env.rand (k+1) * (4/10)
  let direction : ℚ := if startFromLeft then 1 else -1
  let width : ℚ := 40
  let height : ℚ := 25
  let y := canvasH - height - 5
  { x := if startFromLeft then -width else canvasW
    y := y
    width := width
    height := height
    dx := speed * direction
    color := "#ff5533"
    speed := speed }

/-- `generateCrab()`. -/
def generateCrab (env : Env) (g : Game) (k : ℕ) : Game × ℕ :=
  ({ g with crabs := g.crabs ++ [generateCrabEntity env k] }, k + 2)

/-- One particle of a `createExplosion` burst. -/
def explosionParticle (env : Env) (x y : ℚ) (color : Color) (k : ℕ) : Particle :=
  let angle := env.rand k * env.pi * 2
  let speed := 1 + env.rand (k+1) * 3
  let radius := 1 + env.rand (k+2) * 2
  { x := x
    y := y
    dx := env.cos angle * speed
    dy := env.sin angle * speed
    radius := radius
    color := color
    lifespan := PARTICLE_LIFESPAN
    initialLifespan := PARTICLE_LIFESPAN }

/-- The particle-spawning loop of `createExplosion`. -/
def createExplosionLoop (env : Env) (x y : ℚ) (color : Color) :
    ℕ → Game → ℕ → Game × ℕ
  | 0, g, k => (g, k)
  | n+1, g, k =>
    createExplosionLoop env x y color n
      { g with particles := g.particles ++ [explosionParticle env x y color k] } (k + 3)

/-- `createExplosion(x, y, color)`: pushes a 10–19 particle burst. -/
def createExplosion (env : Env) (x y : ℚ) (color : Color) (g : Game) (k : ℕ) : Game × ℕ :=
  let particleCount := (10 + (env.rand k * 10).floor).toNat
  createExplosionLoop env x y color particleCount g (k + 1)

-- --- Update Subsystems ---

/-- The frame-rate normalization factor `scaleFactor = Δt / (1000/60)`. -/
def scaleOf (deltaTime : ℚ) : ℚ := deltaTime / (1000 / 60)

/-- Buoyancy step of `updateDiver`: `diver.dy -= 0.02 * scaleFactor`. -/
def diverBuoyancy (scaleFactor : ℚ) (d : Diver) : Diver :=
  { d with dy := d.dy - (2/100) * scaleFactor }

/-- Horizontal input step of `updateDiver`: pressing a direction sets the
velocity to `±speed` and the facing; otherwise exponential damping. -/
def diverHorizontalInput (env : Env) (scaleFactor : ℚ) (keys : Keys) (d : Diver) : Diver :=
  if keys.arrowRight then { d with dx := d.speed, facingDirection := Facing.right }
  else if keys.arrowLeft then { d with dx := -d.speed, facingDirection := Facing.left }
  else { d with dx := d.dx * env.pow (9/10) scaleFactor }

/-- Vertical input step of `updateDiver`. -/
def diverVerticalInput (env : Env) (scaleFactor : ℚ) (keys : Keys) (d : Diver) : Diver :=
  if keys.arrowDown then { d with dy := d.speed }
  else if keys.arrowUp then { d with dy := -d.speed }
  else { d with dy := d.dy * env.pow (9/10) scaleFactor }

/-- Position integration step of `updateDiver`. -/
def diverIntegrate (scaleFactor : ℚ) (d : Diver) : Diver :=
  { d with x := d.x + d.dx * scaleFactor, y := d.y + d.dy * scaleFactor }

/-- Bound clamping step of `updateDiver`. -/
def diverClamp (d : Diver) : Diver :=
  { d with x := max 0 (min (canvasW - d.width) d.x),
           y := max 0 (min (canvasH - d.height) d.y) }

/-- Combo-timer countdown step of `updateDiver`: reaching zero resets the
combo counter. -/
def diverComboTick (scaleFactor : ℚ) (d : Diver) : Diver :=
  if d.comboTimer > 0 then
    let t := d.comboTimer - scaleFactor
    if t ≤ 0 then { d with comboCounter := 0, comboTimer := 0 }
    else { d with comboTimer := t }
  else d

/-- Shield-timer countdown step of `updateDiver`: reaching zero clears the
shield flag. -/
def diverShieldTick (scaleFactor : ℚ) (d : Diver) : Diver :=
  if d.shieldTimer > 0 then
    let t := d.shieldTimer - scaleFactor
    if t ≤ 0 then { d with shieldTimer := t, isShieldActive := false }
    else { d with shieldTimer := t }
  else d

/-- `updateDiver(deltaTime)`: buoyancy, directional velocity, exponential
damping, position integration with bound clamping, combo timer and shield
timer countdown, in source order. -/
def updateDiver (env : Env) (deltaTime : ℚ) (g : Game) : Game :=
  let scaleFactor := scaleOf deltaTime
  { g with diver :=
      diverShieldTick scaleFactor (diverComboTick scaleFactor (diverClamp
        (diverIntegrate scaleFactor (diverVerticalInput env scaleFactor g.keys
          (diverHorizontalInput env scaleFactor g.keys
            (diverBuoyancy scaleFactor g.diver)))))) }

/-- `fireHarpoon()`: pushes one harpoon from the craft's leading edge. -/
def fireHarpoon (env : Env) (g : Game) : Game :=
  let direction : ℚ := if g.diver.facingDirection = Facing.right then 1 else -1
  let speed : ℚ := 10
  let h : Harpoon :=
    { x := if g.diver.facingDirection = Facing.left then g.diver.x
           else g.diver.x + g.diver.width
      y := g.diver.y + g.diver.height / 2
      dx := direction * speed
      dy := 0
      length := 20
      width := 3
      angle := if direction = 1 then 0 else env.pi
      lifespan := 60 }
  { g with harpoons := g.harpoons ++ [h] }

/-- `updateWeaponSystem(deltaTime)`: cooldown countdown, rapid-fire / fire
condition, harpoon integration and lifespan/bounds filtering.
(`game.keys.Space || game.keys[" "]` reduces to the `Space` flag: the key
handler maps `" "` onto `Space` and never stores a `" "` entry.) -/
def updateWeaponSystem (env : Env) (deltaTime : ℚ) (g : Game) : Game :=
  let scaleFactor := scaleOf deltaTime
  let d := g.diver
  let d : Diver :=
    if d.weaponCooldown > 0 then
      let c := d.weaponCooldown - scaleFactor
      if c ≤ 0 then { d with weaponCooldown := c, canFire := true }
      else { d with weaponCooldown := c }
    else d
  let g := { g with diver := d }
  let g : Game :=
    if g.keys.space ∧
       (g.diver.canFire ∨
        g.diver.weaponCooldown ≤ g.diver.weaponCooldownMax * RAPID_FIRE_THRESHOLD_FACTOR) then
      let g := fireHarpoon env g
      { g with diver := { g.diver with canFire := false,
                                       weaponCooldown := g.diver.weaponCooldownMax } }
    else g
  { g with harpoons :=
      (g.harpoons.map fun h =>
        { h with x := h.x + h.dx * scaleFactor,
                 y := h.y + h.dy * scaleFactor,
                 lifespan := h.lifespan - scaleFactor }).filter fun h =>
        decide (h.lifespan > 0) &&
        decide (h.x > -h.length) && decide (h.x < canvasW + h.length) &&
        decide (h.y > -h.length) && decide (h.y < canvasH + h.length) }

/-- Per-heart motion inside `updateHearts`: rotation, and gravity-driven
fall (at 80% of regular gravity) until the target resting Y is reached. -/
def heartMove (scaleFactor : ℚ) (h : Heart) : Heart :=
  let h := { h with angle := h.angle + h.rotationSpeed * scaleFactor }
  if h.isFalling then
    let dy := h.dy + GRAVITY * (8/10) * scaleFactor
    let y := h.y + dy * scaleFactor
    if y ≥ h.targetY then { h with y := h.targetY, isFalling := false, dy := 0 }
    else { h with dy := dy, y := y }
  else h

/-- The `for (heart of game.hearts)` loop of `updateHearts`; `acc` holds the
hearts kept so far (each loop iteration removes at most the current heart). -/
def updateHeartsLoop (env : Env) (scaleFactor : ℚ) :
    List Heart → Game → ℕ → List Heart → Game × ℕ
  | [], g, k, acc => ({ g with hearts := acc }, k)
  | h :: rest, g, k, acc =>
    let h := heartMove scaleFactor h
    if isColliding g.diver.rect true h.rect false then
      let (g, k) :=
        if g.playerLives < MAX_PLAYER_LIVES then
          let g := { g with playerLives := min (g.playerLives + h.value) MAX_PLAYER_LIVES }
          let g := { g with score := g.score + 50 * (g.diver.comboCounter + 1) }
          let g := { g with diver := { g.diver with
                       comboCounter := g.diver.comboCounter + 1,
                       comboTimer := COMBO_TIMEOUT_FRAMES } }
          let (g, k) := createExplosion env (h.x + h.width/2) (h.y + h.height/2) h.color g k
          createExplosion env (h.x + h.width/2) (h.y + h.height/2) "#ff88aa" g k
        else (g, k)
      updateHeartsLoop env scaleFactor rest g k acc
    else
      updateHeartsLoop env scaleFactor rest g k (acc ++ [h])

/-- `updateHearts(deltaTime)`. -/
def updateHearts (env : Env) (deltaTime : ℚ) (g : Game) (k : ℕ) : Game × ℕ :=
  updateHeartsLoop env (scaleOf deltaTime) g.hearts g k []

/-- Per-treasure motion inside `updateTreasures`: rotation and gravity fall. -/
def treasureMove (scaleFactor : ℚ) (t : Treasure) : Treasure :=
  let t := { t with angle := t.angle + t.rotationSpeed * scaleFactor }
  if t.isFalling then
    let dy := t.dy + GRAVITY * scaleFactor
    let y := t.y + dy * scaleFactor
    if y ≥ t.targetY then { t with y := t.targetY, isFalling := false, dy := 0 }
    else { t with dy := dy, y := y }
  else t

/-- The `for (treasure of game.treasures)` loop of `updateTreasures`. -/
def updateTreasuresLoop (env : Env) (scaleFactor : ℚ) :
    List Treasure → Game → ℕ → List Treasure → Game × ℕ
  | [], g, k, acc => ({ g with treasures := acc }, k)
  | t :: rest, g, k, acc =>
    let t := treasureMove scaleFactor t
    if isColliding g.diver.rect true t.rect false then
      let g := { g with score := g.score + t.value * (g.diver.comboCounter + 1) }
      let g := { g with diver := { g.diver with
                   comboCounter := g.diver.comboCounter + 1,
                   comboTimer := COMBO_TIMEOUT_FRAMES } }
      let (g, k) := createExplosion env (t.x + t.width/2) (t.y + t.height/2) t.color g k
      updateTreasuresLoop env scaleFactor rest g k acc
    else
      updateTreasuresLoop env scaleFactor rest g k (acc ++ [t])

/-- `updateTreasures(deltaTime)` (random treasure spawning is disabled in
the source; treasures only come from shark kills). -/
def updateTreasures (env : Env) (deltaTime : ℚ) (g : Game) (k : ℕ) : Game × ℕ :=
  updateTreasuresLoop env (scaleOf deltaTime) g.treasures g k []

/-- The axis-aligned rectangle used for a harpoon in collision tests. -/
def harpoonRect (h : Harpoon) : Rect :=
  { x := h.x, y := h.y - h.width / 2, width := h.length, height := h.width }

/-- Per-enemy motion inside `updateEnemies`: horizontal advance, sinusoidal
vertical bob around `baseY`, phase advance, and screen-edge wrap. -/
def moveWrapEnemy (env : Env) (scaleFactor : ℚ) (e : Enemy) : Enemy :=
  let e := { e with x := e.x + e.dx * scaleFactor }
  let e := { e with y := e.baseY + env.sin e.offsetY * e.amplitude }
  let e : Enemy := { e with offsetY := e.offsetY + e.frequency * scaleFactor }
  if e.x < -e.width * 2 ∧ e.dx < 0 then { e with x := canvasW + e.width }
  else if e.x > canvasW + e.width * 2 ∧ e.dx > 0 then { e with x := -e.width }
  else e

/-- The probabilistic heart drop of a killed shark (50% chance; the draw is
made only for sharks, by `&&` short-circuit). -/
def enemyDropHeart (env : Env) (e : Enemy) (g : Game) (k : ℕ) : Game × ℕ :=
  if e.isShark then
    if env.rand k < (5/10) then generateHeart env (e.x, e.y) g (k + 1) else (g, k + 1)
  else (g, k)

/-- The probabilistic treasure drop of a killed shark (40% chance). -/
def enemyDropTreasure (env : Env) (e : Enemy) (g : Game) (k : ℕ) : Game × ℕ :=
  if e.isShark then
    if env.rand k < (4/10) then generateTreasures env 1 (some (e.x, e.y)) g (k + 1)
    else (g, k + 1)
  else (g, k)

/-- The harpoon-hit block of `updateEnemies` for a hit on harpoon index
`i`: hit burst, health loss, score credit (25x on the killing hit, 10x
otherwise, each scaled by `combo+1`), combo increment with a full combo
timer, and consumption of the harpoon. -/
def enemyHarpoonHit (env : Env) (g : Game) (e : Enemy) (i : ℕ) (k : ℕ) :
    Game × Enemy × ℕ :=
  let (g, k) := createExplosion env (e.x + e.width/2) (e.y + e.height/2) e.color g k
  let e : Enemy := { e with health := e.health - 1 }
  let g : Game :=
    if e.health ≤ 0 then { g with score := g.score + 25 * (g.diver.comboCounter + 1) }
    else { g with score := g.score + 10 * (g.diver.comboCounter + 1) }
  let g := { g with diver := { g.diver with
               comboCounter := g.diver.comboCounter + 1,
               comboTimer := COMBO_TIMEOUT_FRAMES } }
  let g := { g with harpoons := g.harpoons.eraseIdx i }
  (g, e, k)

/-- The player-collision block of `updateEnemies`: the player loses a fixed
30 oxygen (floored at 0), a damage burst spawns at the player's center, the
combo resets, and the enemy is knocked back. -/
def enemyPlayerHit (env : Env) (g : Game) (e : Enemy) (k : ℕ) : Game × Enemy × ℕ :=
  let g := { g with oxygen := max 0 (g.oxygen - 30) }
  let (g, k) := createExplosion env (g.diver.x + g.diver.width/2)
                  (g.diver.y + g.diver.height/2) "#ff0000" g k
  let g := { g with diver := { g.diver with comboCounter := 0, comboTimer := 0 } }
  let e := { e with dx := -e.dx }
  let e : Enemy := { e with x := e.x + e.dx * 20 }
  (g, e, k)

/-- The `for (enemy of game.enemies)` loop of `updateEnemies`: movement,
player collision (oxygen damage, combo reset, knockback), then harpoon
collision (health loss, scoring, combo, harpoon consumption, drops and
removal on death, knockback otherwise). -/
def updateEnemiesLoop (env : Env) (scaleFactor : ℚ) :
    List Enemy → Game → ℕ → List Enemy → Game × ℕ
  | [], g, k, acc => ({ g with enemies := acc }, k)
  | e :: rest, g, k, acc =>
    let e := moveWrapEnemy env scaleFactor e
    let step : Game × Enemy × ℕ :=
      if isColliding g.diver.rect true e.rect e.isShark ∧ ¬g.diver.isShieldActive then
        enemyPlayerHit env g e k
      else (g, e, k)
    let g := step.1
    let e := step.2.1
    let k := step.2.2
    match g.harpoons.findIdx? (fun h => isColliding (harpoonRect h) false e.rect e.isShark) with
    | none => updateEnemiesLoop env scaleFactor rest g k (acc ++ [e])
    | some i =>
      let (g, e, k) := enemyHarpoonHit env g e i k
      if e.health ≤ 0 then
        let (g, k) := enemyDropHeart env e g k
        let (g, k) := enemyDropTreasure env e g k
        -- the enemy is removed; its `setTimeout` respawn is deferred off-tick
        updateEnemiesLoop env scaleFactor rest g k acc
      else
        let e : Enemy := { e with dx := e.dx * (-(8/10)) }
        updateEnemiesLoop env scaleFactor rest g k (acc ++ [e])

/-- `updateEnemies(deltaTime)`: the per-enemy loop followed by the
probabilistic level-scaled spawn (draw made only when the count condition
holds, by `&&` short-circuit). -/
def maybeSpawnEnemy (env : Env) (scaleFactor : ℚ) (g : Game) (k : ℕ) : Game × ℕ :=
  if (g.enemies.length : ℚ) < 3 + g.level then
    if env.rand k < (2/1000) * scaleFactor then generateEnemies env 1 g (k + 1)
    else (g, k + 1)
  else (g, k)

def updateEnemies (env : Env) (deltaTime : ℚ) (g : Game) (k : ℕ) : Game × ℕ :=
  let scaleFactor := scaleOf deltaTime
  let (g, k) := updateEnemiesLoop env scaleFactor g.enemies g k []
  maybeSpawnEnemy env scaleFactor g k

/-- Per-crab motion inside `updateCrabs`: horizontal patrol with edge wrap. -/
def moveWrapCrab (scaleFactor : ℚ) (c : Crab) : Crab :=
  let c := { c with x := c.x + c.dx * scaleFactor }
  if c.x < -c.width * 2 ∧ c.dx < 0 then { c with x := canvasW + c.width }
  else if c.x > canvasW + c.width * 2 ∧ c.dx > 0 then { c with x := -c.width }
  else c

/-- The crab-eats-settled-treasures inner loop of `updateCrabs`. -/
def crabEatTreasures (env : Env) (c : Crab) :
    List Treasure → Game → ℕ → List Treasure → Game × ℕ
  | [], g, k, acc => ({ g with treasures := acc }, k)
  | t :: rest, g, k, acc =>
    if ¬t.isFalling ∧ isColliding c.rect false t.rect false then
      let (g, k) := createExplosion env (t.x + t.width/2) (t.y + t.height/2) t.color g k
      let g := { g with score := g.score + 5 }
      crabEatTreasures env c rest g k acc
    else
      crabEatTreasures env c rest g k (acc ++ [t])

/-- The crab-eats-settled-hearts inner loop of `updateCrabs`. -/
def crabEatHearts (env : Env) (c : Crab) :
    List Heart → Game → ℕ → List Heart → Game × ℕ
  | [], g, k, acc => ({ g with hearts := acc }, k)
  | h :: rest, g, k, acc =>
    if ¬h.isFalling ∧ isColliding c.rect false h.rect false then
      let (g, k) := createExplosion env (h.x + h.width/2) (h.y + h.height/2) h.color g k
      crabEatHearts env c rest g k acc
    else
      crabEatHearts env c rest g k (acc ++ [h])

/-- The `for (crab of game.crabs)` loop of `updateCrabs`. -/
def updateCrabsLoop (env : Env) (scaleFactor : ℚ) :
    List Crab → Game → ℕ → List Crab → Game × ℕ
  | [], g, k, acc => ({ g with crabs := acc }, k)
  | c :: rest, g, k, acc =>
    let c := moveWrapCrab scaleFactor c
    let (g, k) := crabEatTreasures env c g.treasures g k []
    let (g, k) := crabEatHearts env c g.hearts g k []
    match g.harpoons.findIdx? (fun h => isColliding (harpoonRect h) false c.rect false) with
    | none => updateCrabsLoop env scaleFactor rest g k (acc ++ [c])
    | some i =>
      let c := { c with dx := -c.dx }
      let c : Crab := { c with x := c.x + c.dx * 10 }
      let g := { g with harpoons := g.harpoons.eraseIdx i }
      let (g, k) := createExplosion env (c.x + c.width/2) (c.y + c.height/2) c.color g k
      updateCrabsLoop env scaleFactor rest g k (acc ++ [c])

/-- `updateCrabs(deltaTime)`: probabilistic spawn when no crab exists
(draw made only in that case), then the per-crab loop. -/
def maybeSpawnCrab (env : Env) (scaleFactor : ℚ) (g : Game) (k : ℕ) : Game × ℕ :=
  if g.crabs.length = 0 then
    if env.rand k < (1/1000) * scaleFactor then generateCrab env g (k + 1) else (g, k + 1)
  else (g, k)

def updateCrabs (env : Env) (deltaTime : ℚ) (g : Game) (k : ℕ) : Game × ℕ :=
  let scaleFactor := scaleOf deltaTime
  let (g, k) := maybeSpawnCrab env scaleFactor g k
  updateCrabsLoop env scaleFactor g.crabs g k []

/-- `endGame()`: marks the session over and records the final score. -/
def endGame (g : Game) : Game :=
  { g with gameOver := true, finalScore := g.score }

/-- The oxygen-reaches-zero handler at the end of `updateOxygenBubbles`:
lose a life, death burst, then either respawn at arena center with half
oxygen, cleared combo and a 3-second shield, or end the game. -/
def handleOxygenDepleted (env : Env) (g : Game) (k : ℕ) : Game × ℕ :=
  let g := { g with playerLives := g.playerLives - 1 }
  let (g, k) := createExplosion env (g.diver.x + g.diver.width/2)
                  (g.diver.y + g.diver.height/2) "#ff0000" g k
  if g.playerLives > 0 then
    ({ g with oxygen := MAX_OXYGEN / 2,
              diver := { g.diver with
                x := canvasW / 2, y := canvasH / 2,
                comboCounter := 0, comboTimer := 0,
                isShieldActive := true, shieldTimer := 180 } }, k)
  else (endGame g, k)

/-- Per-bubble motion inside `updateOxygenBubbles`: rise, sinusoidal
horizontal wobble, phase advance, and the pulsing radius of large bubbles
(`bubble.isLarge && bubble.pulse !== undefined`). -/
def bubbleMove (env : Env) (scaleFactor : ℚ) (b : OxygenBubble) : OxygenBubble :=
  let b := { b with y := b.y - b.speed * scaleFactor }
  let b := { b with x := b.x + env.sin b.offset * (3/10) * scaleFactor }
  let b := { b with offset := b.offset + (3/100) * scaleFactor }
  match b.pulse with
  | some p =>
    if b.isLarge then
      let p := p + (5/100) * scaleFactor
      let pulseFactor := env.sin p * (1/10) + 1
      { b with pulse := some p,
               radius := (if b.isLarge then (25:ℚ) else 10) * pulseFactor }
    else b
  | none => b

/-- The `for (bubble of game.oxygenBubbles)` loop of `updateOxygenBubbles`:
rise with wobble, pulse for large bubbles, player pickup (capped oxygen
gain), and off-screen removal. -/
def updateOxygenBubblesLoop (env : Env) (scaleFactor : ℚ) :
    List OxygenBubble → Game → ℕ → List OxygenBubble → Game × ℕ
  | [], g, k, acc => ({ g with oxygenBubbles := acc }, k)
  | b :: rest, g, k, acc =>
    let b := bubbleMove env scaleFactor b
    if isCollidingCircle g.diver.rect true b then
      let g := { g with oxygen := min MAX_OXYGEN (g.oxygen + b.oxygenAmount) }
      let (g, k) := createExplosion env b.x b.y b.color g k
      updateOxygenBubblesLoop env scaleFactor rest g k acc
    else if b.y < -b.radius then
      updateOxygenBubblesLoop env scaleFactor rest g k acc
    else
      updateOxygenBubblesLoop env scaleFactor rest g k (acc ++ [b])

def maybeSpawnSmallBubbles (env : Env) (scaleFactor : ℚ) (g : Game) (k : ℕ) : Game × ℕ :=
  if env.rand k < (5/1000) * scaleFactor then generateOxygenBubbles env 1 g (k + 1)
  else (g, k + 1)

def maybeSpawnLargeBubble (env : Env) (scaleFactor : ℚ) (g : Game) (k : ℕ) : Game × ℕ :=
  if env.rand k < (7/10000) * scaleFactor then generateLargeOxygenBubble env g (k + 1)
  else (g, k + 1)

/-- The oxygen-reaches-zero guard at the end of `updateOxygenBubbles`
(`game.oxygen <= 0 && game.gameStarted && !game.gameOver`). -/
def checkOxygenDepleted (env : Env) (g : Game) (k : ℕ) : Game × ℕ :=
  if g.oxygen ≤ 0 ∧ g.gameStarted ∧ ¬g.gameOver then handleOxygenDepleted env g k
  else (g, k)

/-- `updateOxygenBubbles(deltaTime)`: depth-scaled oxygen depletion (floored
at 0), low-oxygen warning cues (the below-10% cue consumes a random draw),
the bubble loop, probabilistic small/large bubble spawns, and the
oxygen-reaches-zero life-loss handler. -/
def updateOxygenBubbles (env : Env) (deltaTime : ℚ) (g : Game) (k : ℕ) : Game × ℕ :=
  let scaleFactor := scaleOf deltaTime
  let depthFactor := g.diver.y / canvasH
  let depthMultiplier := 1 + depthFactor
  let g := { g with
    oxygen := max 0 (g.oxygen - g.diver.oxygenDepletionRate * depthMultiplier * scaleFactor) }
  -- the 20%-threshold warning plays a sound only; the below-10% warning
  -- draws `Math.random()` when the oxygen percentage is under 10%
  let k := if g.oxygen / MAX_OXYGEN < (1/10) then k + 1 else k
  let (g, k) := updateOxygenBubblesLoop env scaleFactor g.oxygenBubbles g k []
  let (g, k) := maybeSpawnSmallBubbles env scaleFactor g k
  let (g, k) := maybeSpawnLargeBubble env scaleFactor g k
  checkOxygenDepleted env g k

/-- Per-bonus motion inside `updateOxygenBonus`: fade-in, rotation, rise,
lifespan countdown, and fade-out in the final 100 frames. -/
def bonusMove (scaleFactor : ℚ) (b : OxygenBonus) : OxygenBonus :=
  let b : OxygenBonus :=
    if ¬b.fullyVisible ∧ b.alpha < 1 then
      let a := b.alpha + (2/100) * scaleFactor
      if a ≥ 1 then { b with alpha := 1, fullyVisible := true }
      else { b with alpha := a }
    else b
  let b := { b with angle := b.angle + b.rotationSpeed * scaleFactor }
  let b := { b with y := b.y + b.dy * scaleFactor }
  let b : OxygenBonus := { b with lifespan := b.lifespan - scaleFactor }
  if b.lifespan < 100 then { b with alpha := max 0 (b.alpha - (2/100) * scaleFactor) }
  else b

/-- The filter body of `updateOxygenBonus` over each bonus: surface reward
((15/10)× value), destruction by a hostile (no reward), player collection
(full value), or retention while lifespan and alpha remain positive. -/
def updateOxygenBonusLoop (env : Env) (scaleFactor : ℚ) :
    List OxygenBonus → Game → ℕ → List OxygenBonus → Game × ℕ
  | [], g, k, acc => ({ g with oxygenBonus := acc }, k)
  | b :: rest, g, k, acc =>
    let b := bonusMove scaleFactor b
    if b.y ≤ 30 then
      let g := { g with oxygen := min MAX_OXYGEN (g.oxygen + b.value * (15/10)) }
      let g := { g with score := g.score + 250 * (g.diver.comboCounter + 1) }
      let g := { g with diver := { g.diver with
                   comboCounter := g.diver.comboCounter + 1,
                   comboTimer := COMBO_TIMEOUT_FRAMES } }
      let (g, k) := createExplosion env (b.x + b.width/2) (b.y + b.height/2) "#88ffff" g k
      let (g, k) := createExplosion env (b.x + b.width/2) (b.y + b.height/2) "#ffffff" g k
      let (g, k) := createExplosion env (b.x + b.width/2) (b.y + b.height/2) "#ffff88" g k
      updateOxygenBonusLoop env scaleFactor rest g k acc
    else if g.enemies.any (fun e => isColliding e.rect false b.rect false) then
      let (g, k) := createExplosion env (b.x + b.width/2) (b.y + b.height/2) "#ff5555" g k
      let (g, k) := createExplosion env (b.x + b.width/2) (b.y + b.height/2) "#ffaa55" g k
      updateOxygenBonusLoop env scaleFactor rest g k acc
    else if isColliding g.diver.rect true b.rect false then
      let g := { g with oxygen := min MAX_OXYGEN (g.oxygen + b.value) }
      let g := { g with score := g.score + 150 * (g.diver.comboCounter + 1) }
      let g := { g with diver := { g.diver with
                   comboCounter := g.diver.comboCounter + 1,
                   comboTimer := COMBO_TIMEOUT_FRAMES } }
      let (g, k) := createExplosion env (b.x + b.width/2) (b.y + b.height/2) "#88ffff" g k
      let (g, k) := createExplosion env (b.x + b.width/2) (b.y + b.height/2) "#ffff88" g k
      updateOxygenBonusLoop env scaleFactor rest g k acc
    else if b.lifespan > 0 ∧ b.alpha > 0 then
      updateOxygenBonusLoop env scaleFactor rest g k (acc ++ [b])
    else
      updateOxygenBonusLoop env scaleFactor rest g k acc

/-- `updateOxygenBonus(deltaTime)`: rare spawn when none exists (draw made
only in that case, by `&&` short-circuit), then the per-bonus filter. -/
def maybeSpawnBonus (env : Env) (scaleFactor : ℚ) (g : Game) (k : ℕ) : Game × ℕ :=
  if g.oxygenBonus.length = 0 then
    if env.rand k < (5/10000) * scaleFactor then generateOxygenBonus env g (k + 1)
    else (g, k + 1)
  else (g, k)

def updateOxygenBonus (env : Env) (deltaTime : ℚ) (g : Game) (k : ℕ) : Game × ℕ :=
  let scaleFactor := scaleOf deltaTime
  let (g, k) := maybeSpawnBonus env scaleFactor g k
  updateOxygenBonusLoop env scaleFactor g.oxygenBonus g k []

/-- `updateParticles(deltaTime)`: integrate, apply drag, age, and drop dead
particles. -/
def updateParticles (deltaTime : ℚ) (g : Game) : Game :=
  let scaleFactor := scaleOf deltaTime
  { g with particles :=
      (g.particles.map fun p =>
        let p := { p with x := p.x + p.dx * scaleFactor, y := p.y + p.dy * scaleFactor }
        let p : Particle := { p with dx := p.dx * (95/100), dy := p.dy * (95/100) }
        { p with lifespan := p.lifespan - scaleFactor }).filter fun p =>
        decide (p.lifespan > 0) }

/-- A single gold/white particle of the level-up celebration. -/
def levelUpParticle (env : Env) (x y : ℚ) (k : ℕ) : Particle :=
  { x := x
    y := y
    dx := (env.rand k - (5/10)) * 3
    dy := (env.rand (k+1) - (5/10)) * 3
    radius := 2 + env.rand (k+2) * 3
    color := if env.rand (k+3) < (5/10) then "#ffff00" else "#ffffff"
    lifespan := PARTICLE_LIFESPAN * 2
    initialLifespan := PARTICLE_LIFESPAN * 2 }

/-- `createLevelUpEffect()`: 40 gold/white particles spawned on the arena's
four edges. -/
def createLevelUpEffectLoop (env : Env) : ℕ → Game → ℕ → Game × ℕ
  | 0, g, k => (g, k)
  | n+1, g, k =>
    let edge := (env.rand k * 4).floor
    let (x, y, k) : ℚ × ℚ × ℕ :=
      if edge = 0 then (env.rand (k+1) * canvasW, 0, k + 2)
      else if edge = 1 then (canvasW, env.rand (k+1) * canvasH, k + 2)
      else if edge = 2 then (env.rand (k+1) * canvasW, canvasH, k + 2)
      else if edge = 3 then (0, env.rand (k+1) * canvasH, k + 2)
      else (0, 0, k + 1)
    createLevelUpEffectLoop env n
      { g with particles := g.particles ++ [levelUpParticle env x y k] } (k + 4)

/-- `createLevelUpEffect()`. -/
def createLevelUpEffect (env : Env) (g : Game) (k : ℕ) : Game × ℕ :=
  createLevelUpEffectLoop env 40 g k

/-- `updateLevel()`: score-based level progression, capped at level 5, with
a fixed oxygen-depletion-rate increase and celebratory spawns on level-up. -/
def updateLevel (env : Env) (g : Game) (k : ℕ) : Game × ℕ :=
  let levelThreshold := 2000 * g.level
  if g.score ≥ levelThreshold ∧ g.level < 5 then
    let g := { g with level := g.level + 1 }
    let g := { g with diver :=
      { g.diver with oxygenDepletionRate := g.diver.oxygenDepletionRate + (2/100) } }
    let (g, k) := generateEnemies env g.level g k
    let (g, k) := generateOxygenBubbles env 1 g k
    createLevelUpEffect env g k
  else (g, k)

-- --- Simulation Clock / Loop Driver ---

/-- The state-update portion of one `gameLoop` invocation while playing:
the fixed subsystem order
player → weapon → treasures → hearts → enemies → crabs → bubbles → bonus →
particles → level check. -/
def tickUpdate (env : Env) (deltaTime : ℚ) (g : Game) (k : ℕ) : Game × ℕ :=
  let g := updateDiver env deltaTime g
  let g := updateWeaponSystem env deltaTime g
  let (g, k) := updateTreasures env deltaTime g k
  let (g, k) := updateHearts env deltaTime g k
  let (g, k) := updateEnemies env deltaTime g k
  let (g, k) := updateCrabs env deltaTime g k
  let (g, k) := updateOxygenBubbles env deltaTime g k
  let (g, k) := updateOxygenBonus env deltaTime g k
  let g := updateParticles deltaTime g
  updateLevel env g k

/-- One `gameLoop(timestamp)` invocation.  Returns the new state, the draw
counter, and whether the loop rescheduled itself (`requestAnimationFrame`),
which it does on every invocation.  A `deltaTime` above 100 ms skips the
whole update (rendering is a read-only projection and is not modelled). -/
def gameLoop (env : Env) (timestamp : ℚ) (g : Game) (k : ℕ) : (Game × ℕ) × Bool :=
  let deltaTime := timestamp - g.lastUpdateTime
  let g := { g with lastUpdateTime := timestamp }
  if deltaTime > 100 then ((g, k), true)
  else
    let (g, k) :=
      if g.gameStarted ∧ ¬g.gameOver then tickUpdate env deltaTime g k else (g, k)
    ((g, k), true)

/-- The first six subsystem updates of `tickUpdate` (through `updateCrabs`),
split out so that facts about the state entering `updateOxygenBubbles` can
be stated. -/
def tickPrefix6 (env : Env) (deltaTime : ℚ) (g : Game) (k : ℕ) : Game × ℕ :=
  let g := updateDiver env deltaTime g
  let g := updateWeaponSystem env deltaTime g
  let (g, k) := updateTreasures env deltaTime g k
  let (g, k) := updateHearts env deltaTime g k
  let (g, k) := updateEnemies env deltaTime g k
  updateCrabs env deltaTime g k

/-- The last four subsystem updates of `tickUpdate` (from
`updateOxygenBubbles` on). -/
def tickRest (env : Env) (deltaTime : ℚ) (g : Game) (k : ℕ) : Game × ℕ :=
  let (g, k) := updateOxygenBubbles env deltaTime g k
  let (g, k) := updateOxygenBonus env deltaTime g k
  let g := updateParticles deltaTime g
  updateLevel env g k

/-- The world state as first created in the component (before `init()`),
with `performance.now()` abstracted as `now`. -/
def freshGame (now : ℚ) : Game :=
  { gameStarted := false
    gameOver := false
    score := 0
    oxygen := MAX_OXYGEN
    level := 1
    playerLives := 3
    hearts := []
    treasures := []
    enemies := []
    crabs := []
    oxygenBubbles := []
    harpoons := []
    particles := []
    oxygenBonus := []
    oxygenGenerator := { x := canvasW / 2 - 30, y := canvasH - 60, width := 60, height := 50 }
    diver :=
      { x := canvasW / 2
        y := canvasH / 2
        width := 70
        height := 47
        speed := 4
        baseSpeed := 4
        dx := 0
        dy := 0
        color := "#00a8ff"
        oxygenDepletionRate := (5/100)
        size := 1
        canFire := true
        weaponCooldown := 0
        weaponCooldownMax := 30
        facingDirection := Facing.right
        comboCounter := 0
        comboTimer := 0
        isShieldActive := false
        shieldTimer := 0 }
    keys := { arrowRight := false, arrowLeft := false, arrowUp := false,
              arrowDown := false, space := false }
    lastUpdateTime := now
    finalScore := 0 }

/-- The state-reset portion of `init()` (everything before the initial
entity generation). -/
def initReset (now : ℚ) (g : Game) : Game :=
  let g := { g with gameStarted := true, gameOver := false, score := 0,
                    oxygen := MAX_OXYGEN, level := 1, lastUpdateTime := now,
                    playerLives := 3 }
  let g := { g with diver := { g.diver with
               x := canvasW / 2, y := canvasH / 2, dx := 0, dy := 0, size := 1,
               width := 70, height := 47, speed := g.diver.baseSpeed,
               oxygenDepletionRate := (5/100), canFire := true, weaponCooldown := 0,
               weaponCooldownMax := 30, facingDirection := Facing.right,
               comboCounter := 0, comboTimer := 0,
               isShieldActive := false, shieldTimer := 0 } }
  let g := { g with treasures := [], enemies := [], oxygenBubbles := [],
                    harpoons := [], particles := [], hearts := [], crabs := [],
                    oxygenBonus := [] }
  { g with oxygenGenerator :=
    { x := canvasW / 2 - 30, y := canvasH - 60, width := 60, height := 50 } }

/-- `init()`: reset all session state and spawn the initial enemies,
bubbles and crab; also resets the recorded final score to 0. -/
def init (env : Env) (now : ℚ) (g : Game) (k : ℕ) : Game × ℕ :=
  let g := initReset now g
  let (g, k) := generateEnemies env 3 g k
  let (g, k) := generateOxygenBubbles env 2 g k
  let (g, k) := generateLargeOxygenBubble env g k
  let (g, k) := generateCrab env g k
  ({ g with finalScore := 0 }, k)

/-- A freshly initialized playing session. -/
def initGame (env : Env) (now : ℚ) (k : ℕ) : Game × ℕ :=
  init env now (freshGame now) k

-- --- Concrete instances for witnesses and counterexamples ---

/-- A deterministic environment: every `Math.random()` draw returns `1/2`
(in `[0,1)`), and the abstract analytic functions are constant. -/
def cenv : Env :=
  { sin := fun _ => 0
    cos := fun _ => 0
    pow := fun _ _ => 1
    pi := 0
    rand := fun _ => 1/2
    hsl := fun _ _ _ => "" }

/-- The fresh playing session of the C4 scenario, with the player at the
surface (`y = 0`). -/
def c4game : Game :=
  { freshGame 0 with
      gameStarted := true
      diver := { (freshGame 0).diver with y := 0 } }

/-- A playing session whose oxygen has just run out, with spare lives. -/
def c2game : Game :=
  { freshGame 0 with gameStarted := true, oxygen := 0 }

/-- A one-health fish far from the player, used for the harpoon-hit
scenario. -/
def c3enemy : Enemy :=
  { x := 100, y := 100, width := 40, height := 20, color := "#ff7700",
    dx := 0, amplitude := 0, frequency := 0, offsetY := 0, baseY := 100,
    health := 1, maxHealth := 1, isShark := false, aggressionLevel := 0 }

/-- A harpoon overlapping `c3enemy`. -/
def c3harpoon : Harpoon :=
  { x := 100, y := 110, dx := 0, dy := 0, length := 30, width := 6,
    angle := 0, lifespan := 100 }

/-- A playing session with exactly the harpoon `c3harpoon` in flight. -/
def c3game : Game :=
  { freshGame 0 with gameStarted := true, harpoons := [c3harpoon] }

/-- A playing session sitting exactly at the level-2 threshold. -/
def c7game : Game :=
  { freshGame 0 with gameStarted := true, score := 2000 }

/-- A settled heart overlapping the player's starting position. -/
def c10heart : Heart :=
  { x := 720, y := 390, width := 20, height := 18, color := "#ff3377",
    value := 1, angle := 0, rotationSpeed := 0, dy := 0, targetY := 390,
    isFalling := false }

/-- A playing session already at the maximum of 10 lives. -/
def c10game : Game :=
  { freshGame 0 with gameStarted := true, playerLives := 10 }

/-- A fully-visible oxygen bonus rising mid-water. -/
def c6bonus : OxygenBonus :=
  { x := 100, y := 400, width := 40, height := 40, value := 45, angle := 0,
    rotationSpeed := 0, dy := -(8/10), fullyVisible := true, alpha := 1,
    lifespan := 500 }

/-- A hostile overlapping the risen position of `c6bonus`. -/
def c6enemy : Enemy :=
  { x := 100, y := 390, width := 40, height := 20, color := "#ff7700",
    dx := 0, amplitude := 0, frequency := 0, offsetY := 0, baseY := 390,
    health := 2, maxHealth := 2, isShark := false, aggressionLevel := 0 }

/-- A playing session with a running combo, the bonus `c6bonus` in flight
and the hostile `c6enemy` about to overlap it. -/
def c6game : Game :=
  { freshGame 0 with
      gameStarted := true
      score := 500
      enemies := [c6enemy]
      oxygenBonus := [c6bonus]
      diver := { (freshGame 0).diver with comboCounter := 3, comboTimer := 100 } }

/-- A playing session with a running combo (5, timer 180) whose oxygen has
just run out, two lives left and no hostiles anywhere. -/
def c9game : Game :=
  { freshGame 0 with
      gameStarted := true
      playerLives := 2
      oxygen := 0
      diver := { (freshGame 0).diver with comboCounter := 5, comboTimer := 180 } }

/-- The combo counter has only gained (finitely many) unit increments. -/
def ComboGain (c c' : ℚ) : Prop := ∃ m : ℕ, c' = c + m

/-- The combo counter has only gained unit increments, or has been reset
to 0 and then gained unit increments. -/
def ComboEvo (c c' : ℚ) : Prop := ∃ m : ℕ, c' = c + m ∨ c' = (m : ℚ)

-- --- Invariants ---

/-- Every heart carries exactly 1 life (as created by `generateHeart`). -/
def HeartsOk (hs : List Heart) : Prop := ∀ h ∈ hs, h.value = 1

/-- Every oxygen bubble carries a nonnegative oxygen amount. -/
def BubblesOk (bs : List OxygenBubble) : Prop := ∀ b ∈ bs, 0 ≤ b.oxygenAmount

/-- Every oxygen bonus carries a nonnegative value. -/
def BonusOk (bs : List OxygenBonus) : Prop := ∀ b ∈ bs, 0 ≤ b.value

/-- The world-state invariant maintained by every tick: the oxygen and
lives bounds of the specification, strengthened by the auxiliary facts
needed to make them inductive (lives are integral, a playing session has a
live player, the depletion rate and diver depth are nonnegative, and
spawned pickups carry the values their factories assign). -/
structure Inv (g : Game) : Prop where
  oxygen_nonneg : 0 ≤ g.oxygen
  oxygen_le : g.oxygen ≤ MAX_OXYGEN
  lives_nonneg : 0 ≤ g.playerLives
  lives_le : g.playerLives ≤ MAX_PLAYER_LIVES
  lives_int : g.playerLives.den = 1
  lives_playing : g.gameStarted = true → g.gameOver = false → 1 ≤ g.playerLives
  rate_nonneg : 0 ≤ g.diver.oxygenDepletionRate
  diverY_nonneg : 0 ≤ g.diver.y
  hearts_ok : HeartsOk g.hearts
  bubbles_ok : BubblesOk g.oxygenBubbles
  bonus_ok : BonusOk g.oxygenBonus

-- --- Helper lemmas: integral rationals ---

theorem den_one_exists_int {q : ℚ} (h : q.den = 1) : ∃ z : ℤ, q = (z : ℚ) := by
  refine ⟨q.num, ?_⟩
  rw [← Rat.num_div_den q, h]
  simp

theorem den_one_sub_one {q : ℚ} (h : q.den = 1) : (q - 1).den = 1 := by
  obtain ⟨z, rfl⟩ := den_one_exists_int h
  have : (z : ℚ) - 1 = ((z - 1 : ℤ) : ℚ) := by push_cast; ring
  rw [this, Rat.den_intCast]

theorem den_one_add {q r : ℚ} (hq : q.den = 1) (hr : r.den = 1) : (q + r).den = 1 := by
  obtain ⟨z, rfl⟩ := den_one_exists_int hq
  obtain ⟨w, rfl⟩ := den_one_exists_int hr
  have : (z : ℚ) + w = ((z + w : ℤ) : ℚ) := by push_cast; ring
  rw [this, Rat.den_intCast]

theorem den_one_min {q r : ℚ} (hq : q.den = 1) (hr : r.den = 1) : (min q r).den = 1 := by
  rcases min_cases q r with ⟨h, _⟩ | ⟨h, _⟩ <;> rw [h] <;> assumption

theorem den_one_pos_ge_one {q : ℚ} (hden : q.den = 1) (hpos : 0 < q) : 1 ≤ q := by
  obtain ⟨z, rfl⟩ := den_one_exists_int hden
  have hz : 0 < z := by exact_mod_cast hpos
  exact_mod_cast hz

-- --- Frame lemmas: factories touch only their own collection ---

theorem createExplosionLoop_frame (env : Env) (x y : ℚ) (c : Color) :
    ∀ (n : ℕ) (g : Game) (k : ℕ),
      ∃ ps k', createExplosionLoop env x y c n g k = ({ g with particles := ps }, k') := by
  intro n
  induction n with
  | zero => intro g k; exact ⟨g.particles, k, rfl⟩
  | succ n ih =>
    intro g k
    simpa only [createExplosionLoop] using ih _ (k + 3)

theorem createExplosion_frame (env : Env) (x y : ℚ) (c : Color) (g : Game) (k : ℕ) :
    ∃ ps k', createExplosion env x y c g k = ({ g with particles := ps }, k') := by
  simpa only [createExplosion] using createExplosionLoop_frame env x y c _ g (k + 1)

theorem generateHeart_frame (env : Env) (pos : ℚ × ℚ) (g : Game) (k : ℕ) :
    ∃ hs k', generateHeart env pos g k = ({ g with hearts := hs }, k') ∧
      (HeartsOk g.hearts → HeartsOk hs) := by
  unfold generateHeart
  split
  · exact ⟨g.hearts, k, rfl, fun h => h⟩
  · refine ⟨g.hearts ++ [generateHeartEntity env pos k], k + 3, rfl, ?_⟩
    intro hok h hmem
    rcases List.mem_append.1 hmem with hm | hm
    · exact hok h hm
    · rw [List.mem_singleton] at hm
      subst hm
      rfl

theorem generateTreasuresLoop_frame (env : Env) (pos : Option (ℚ × ℚ)) :
    ∀ (n : ℕ) (g : Game) (k : ℕ),
      ∃ ts k', generateTreasuresLoop env pos n g k = ({ g with treasures := ts }, k') := by
  intro n
  induction n with
  | zero => intro g k; exact ⟨g.treasures, k, rfl⟩
  | succ n ih =>
    intro g k
    cases pos <;> simpa only [generateTreasuresLoop] using ih _ _

theorem generateTreasures_frame (env : Env) (count : ℚ) (pos : Option (ℚ × ℚ))
    (g : Game) (k : ℕ) :
    ∃ ts k', generateTreasures env count pos g k = ({ g with treasures := ts }, k') :=
  generateTreasuresLoop_frame env pos _ g k

theorem generateEnemiesLoop_frame (env : Env) (level : ℚ) :
    ∀ (n : ℕ) (g : Game) (k : ℕ),
      ∃ es k', generateEnemiesLoop env level n g k = ({ g with enemies := es }, k') := by
  intro n
  induction n with
  | zero => intro g k; exact ⟨g.enemies, k, rfl⟩
  | succ n ih =>
    intro g k
    simp only [generateEnemiesLoop]
    split <;> exact ih _ _

theorem generateEnemies_frame (env : Env) (count : ℚ) (g : Game) (k : ℕ) :
    ∃ es k', generateEnemies env count g k = ({ g with enemies := es }, k') := by
  unfold generateEnemies
  split
  · exact ⟨g.enemies, k, rfl⟩
  · exact generateEnemiesLoop_frame env g.level _ g k

theorem generateOxygenBubblesLoop_frame (env : Env) (henv : env.Ok) :
    ∀ (n : ℕ) (g : Game) (k : ℕ),
      ∃ bs k', generateOxygenBubblesLoop env n g k = ({ g with oxygenBubbles := bs }, k') ∧
        (BubblesOk g.oxygenBubbles → BubblesOk bs) := by
  intro n
  induction n with
  | zero => intro g k; exact ⟨g.oxygenBubbles, k, rfl, fun h => h⟩
  | succ n ih =>
    intro g k
    obtain ⟨bs, k', heq, hok⟩ :=
      ih { g with oxygenBubbles :=
            g.oxygenBubbles ++ [generateOxygenBubbleEntity env g.oxygenGenerator k] } (k + 5)
    refine ⟨bs, k', by simpa only [generateOxygenBubblesLoop] using heq, ?_⟩
    intro hGood
    apply hok
    intro b hb
    rcases List.mem_append.1 hb with hm | hm
    · exact hGood b hm
    · rw [List.mem_singleton] at hm
      subst hm
      have h0 := (henv (k+3)).1
      show 0 ≤ 15 + env.rand (k+3) * 20
      nlinarith

theorem generateOxygenBubbles_frame (env : Env) (henv : env.Ok) (count : ℚ)
    (g : Game) (k : ℕ) :
    ∃ bs k', generateOxygenBubbles env count g k = ({ g with oxygenBubbles := bs }, k') ∧
      (BubblesOk g.oxygenBubbles → BubblesOk bs) :=
  generateOxygenBubblesLoop_frame env henv _ g k

theorem generateLargeOxygenBubble_frame (env : Env) (henv : env.Ok) (g : Game) (k : ℕ) :
    ∃ bs k', generateLargeOxygenBubble env g k = ({ g with oxygenBubbles := bs }, k') ∧
      (BubblesOk g.oxygenBubbles → BubblesOk bs) := by
  refine ⟨g.oxygenBubbles ++ [generateLargeOxygenBubbleEntity env g.oxygenGenerator k],
    k + 5, rfl, ?_⟩
  intro hok b hb
  rcases List.mem_append.1 hb with hm | hm
  · exact hok b hm
  · rw [List.mem_singleton] at hm
    subst hm
    have h0 := (henv (k+3)).1
    show 0 ≤ 60 + env.rand (k+3) * 40
    nlinarith

theorem generateOxygenBonus_frame (env : Env) (g : Game) (k : ℕ) :
    ∃ bs k', generateOxygenBonus env g k = ({ g with oxygenBonus := bs }, k') ∧
      (BonusOk g.oxygenBonus → BonusOk bs) := by
  refine ⟨g.oxygenBonus ++ [generateOxygenBonusEntity env k], k + 2, rfl, ?_⟩
  intro hok b hb
  rcases List.mem_append.1 hb with hm | hm
  · exact hok b hm
  · rw [List.mem_singleton] at hm
    subst hm
    show (0:ℚ) ≤ 150
    norm_num

theorem generateCrab_frame (env : Env) (g : Game) (k : ℕ) :
    ∃ cs k', generateCrab env g k = ({ g with crabs := cs }, k') :=
  ⟨g.crabs ++ [generateCrabEntity env k], k + 2, rfl⟩

theorem createLevelUpEffectLoop_frame (env : Env) :
    ∀ (n : ℕ) (g : Game) (k : ℕ),
      ∃ ps k', createLevelUpEffectLoop env n g k = ({ g with particles := ps }, k') := by
  intro n
  induction n with
  | zero => intro g k; exact ⟨g.particles, k, rfl⟩
  | succ n ih =>
    intro g k
    simp only [createLevelUpEffectLoop]
    exact ih _ _

theorem createLevelUpEffect_frame (env : Env) (g : Game) (k : ℕ) :
    ∃ ps k', createLevelUpEffect env g k = ({ g with particles := ps }, k') :=
  createLevelUpEffectLoop_frame env _ g k

-- --- Invariant preservation ---

theorem Inv.transfer {g g' : Game} (h : Inv g)
    (hox : g'.oxygen = g.oxygen) (hlv : g'.playerLives = g.playerLives)
    (hgs : g'.gameStarted = g.gameStarted) (hgo : g'.gameOver = g.gameOver)
    (hrate : g'.diver.oxygenDepletionRate = g.diver.oxygenDepletionRate)
    (hy : g'.diver.y = g.diver.y)
    (hh : HeartsOk g'.hearts) (hb : BubblesOk g'.oxygenBubbles)
    (hbn : BonusOk g'.oxygenBonus) : Inv g' where
  oxygen_nonneg := by rw [hox]; exact h.oxygen_nonneg
  oxygen_le := by rw [hox]; exact h.oxygen_le
  lives_nonneg := by rw [hlv]; exact h.lives_nonneg
  lives_le := by rw [hlv]; exact h.lives_le
  lives_int := by rw [hlv]; exact h.lives_int
  lives_playing := by rw [hgs, hgo, hlv]; exact h.lives_playing
  rate_nonneg := by rw [hrate]; exact h.rate_nonneg
  diverY_nonneg := by rw [hy]; exact h.diverY_nonneg
  hearts_ok := hh
  bubbles_ok := hb
  bonus_ok := hbn

theorem createExplosion_inv {env : Env} {x y : ℚ} {c : Color} {g : Game} {k : ℕ}
    (h : Inv g) : Inv (createExplosion env x y c g k).1 := by
  obtain ⟨ps, k', heq⟩ := createExplosion_frame env x y c g k
  rw [heq]
  exact h.transfer rfl rfl rfl rfl rfl rfl h.hearts_ok h.bubbles_ok h.bonus_ok

theorem generateHeart_inv {env : Env} {pos : ℚ × ℚ} {g : Game} {k : ℕ}
    (h : Inv g) : Inv (generateHeart env pos g k).1 := by
  obtain ⟨hs, k', heq, hok⟩ := generateHeart_frame env pos g k
  rw [heq]
  exact h.transfer rfl rfl rfl rfl rfl rfl (hok h.hearts_ok) h.bubbles_ok h.bonus_ok

theorem generateTreasures_inv {env : Env} {count : ℚ} {pos : Option (ℚ × ℚ)}
    {g : Game} {k : ℕ} (h : Inv g) : Inv (generateTreasures env count pos g k).1 := by
  obtain ⟨ts, k', heq⟩ := generateTreasures_frame env count pos g k
  rw [heq]
  exact h.transfer rfl rfl rfl rfl rfl rfl h.hearts_ok h.bubbles_ok h.bonus_ok

theorem generateEnemies_inv {env : Env} {count : ℚ} {g : Game} {k : ℕ}
    (h : Inv g) : Inv (generateEnemies env count g k).1 := by
  obtain ⟨es, k', heq⟩ := generateEnemies_frame env count g k
  rw [heq]
  exact h.transfer rfl rfl rfl rfl rfl rfl h.hearts_ok h.bubbles_ok h.bonus_ok

theorem generateOxygenBubbles_inv {env : Env} (henv : env.Ok) {count : ℚ}
    {g : Game} {k : ℕ} (h : Inv g) : Inv (generateOxygenBubbles env count g k).1 := by
  obtain ⟨bs, k', heq, hok⟩ := generateOxygenBubbles_frame env henv count g k
  rw [heq]
  exact h.transfer rfl rfl rfl rfl rfl rfl h.hearts_ok (hok h.bubbles_ok) h.bonus_ok

theorem generateLargeOxygenBubble_inv {env : Env} (henv : env.Ok)
    {g : Game} {k : ℕ} (h : Inv g) : Inv (generateLargeOxygenBubble env g k).1 := by
  obtain ⟨bs, k', heq, hok⟩ := generateLargeOxygenBubble_frame env henv g k
  rw [heq]
  exact h.transfer rfl rfl rfl rfl rfl rfl h.hearts_ok (hok h.bubbles_ok) h.bonus_ok

theorem generateOxygenBonus_inv {env : Env} {g : Game} {k : ℕ}
    (h : Inv g) : Inv (generateOxygenBonus env g k).1 := by
  obtain ⟨bs, k', heq, hok⟩ := generateOxygenBonus_frame env g k
  rw [heq]
  exact h.transfer rfl rfl rfl rfl rfl rfl h.hearts_ok h.bubbles_ok (hok h.bonus_ok)

theorem generateCrab_inv {env : Env} {g : Game} {k : ℕ}
    (h : Inv g) : Inv (generateCrab env g k).1 := by
  obtain ⟨cs, k', heq⟩ := generateCrab_frame env g k
  rw [heq]
  exact h.transfer rfl rfl rfl rfl rfl rfl h.hearts_ok h.bubbles_ok h.bonus_ok

theorem createLevelUpEffect_inv {env : Env} {g : Game} {k : ℕ}
    (h : Inv g) : Inv (createLevelUpEffect env g k).1 := by
  obtain ⟨ps, k', heq⟩ := createLevelUpEffect_frame env g k
  rw [heq]
  exact h.transfer rfl rfl rfl rfl rfl rfl h.hearts_ok h.bubbles_ok h.bonus_ok

theorem diverComboTick_rate (sf : ℚ) (d : Diver) :
    (diverComboTick sf d).oxygenDepletionRate = d.oxygenDepletionRate := by
  simp only [diverComboTick]; split_ifs <;> rfl

theorem diverComboTick_y (sf : ℚ) (d : Diver) : (diverComboTick sf d).y = d.y := by
  simp only [diverComboTick]; split_ifs <;> rfl

theorem diverShieldTick_rate (sf : ℚ) (d : Diver) :
    (diverShieldTick sf d).oxygenDepletionRate = d.oxygenDepletionRate := by
  simp only [diverShieldTick]; split_ifs <;> rfl

theorem diverShieldTick_y (sf : ℚ) (d : Diver) : (diverShieldTick sf d).y = d.y := by
  simp only [diverShieldTick]; split_ifs <;> rfl

theorem diverHorizontalInput_rate (env : Env) (sf : ℚ) (ks : Keys) (d : Diver) :
    (diverHorizontalInput env sf ks d).oxygenDepletionRate = d.oxygenDepletionRate := by
  simp only [diverHorizontalInput]; split_ifs <;> rfl

theorem diverHorizontalInput_y (env : Env) (sf : ℚ) (ks : Keys) (d : Diver) :
    (diverHorizontalInput env sf ks d).y = d.y := by
  simp only [diverHorizontalInput]; split_ifs <;> rfl

theorem diverVerticalInput_rate (env : Env) (sf : ℚ) (ks : Keys) (d : Diver) :
    (diverVerticalInput env sf ks d).oxygenDepletionRate = d.oxygenDepletionRate := by
  simp only [diverVerticalInput]; split_ifs <;> rfl

theorem diverClamp_y_nonneg (d : Diver) : 0 ≤ (diverClamp d).y := le_max_left 0 _

theorem diverClamp_rate (d : Diver) :
    (diverClamp d).oxygenDepletionRate = d.oxygenDepletionRate := rfl

/-- `updateDiver` only rewrites the diver record; the depletion rate is
untouched and the clamped vertical position is nonnegative. -/
theorem updateDiver_frame (env : Env) (dt : ℚ) (g : Game) :
    ∃ d, updateDiver env dt g = { g with diver := d } ∧
      d.oxygenDepletionRate = g.diver.oxygenDepletionRate ∧ 0 ≤ d.y := by
  refine ⟨_, rfl, ?_, ?_⟩
  · rw [diverShieldTick_rate, diverComboTick_rate, diverClamp_rate]
    show (diverVerticalInput _ _ _ _).oxygenDepletionRate = _
    rw [diverVerticalInput_rate, diverHorizontalInput_rate]
    rfl
  · rw [diverShieldTick_y, diverComboTick_y]
    exact diverClamp_y_nonneg _

theorem updateDiver_inv {env : Env} {dt : ℚ} {g : Game} (h : Inv g) :
    Inv (updateDiver env dt g) := by
  obtain ⟨d, heq, hrate, hy⟩ := updateDiver_frame env dt g
  rw [heq]
  exact { oxygen_nonneg := h.oxygen_nonneg
          oxygen_le := h.oxygen_le
          lives_nonneg := h.lives_nonneg
          lives_le := h.lives_le
          lives_int := h.lives_int
          lives_playing := h.lives_playing
          rate_nonneg := by
            show 0 ≤ d.oxygenDepletionRate
            rw [hrate]; exact h.rate_nonneg
          diverY_nonneg := hy
          hearts_ok := h.hearts_ok
          bubbles_ok := h.bubbles_ok
          bonus_ok := h.bonus_ok }

theorem updateWeaponSystem_frame (env : Env) (dt : ℚ) (g : Game) :
    ∃ d hp, updateWeaponSystem env dt g = { g with diver := d, harpoons := hp } ∧
      d.oxygenDepletionRate = g.diver.oxygenDepletionRate ∧ d.y = g.diver.y := by
  simp only [updateWeaponSystem, fireHarpoon]
  split_ifs <;> exact ⟨_, _, rfl, rfl, rfl⟩

theorem updateWeaponSystem_inv {env : Env} {dt : ℚ} {g : Game} (h : Inv g) :
    Inv (updateWeaponSystem env dt g) := by
  obtain ⟨d, hp, heq, hrate, hy⟩ := updateWeaponSystem_frame env dt g
  rw [heq]
  exact h.transfer rfl rfl rfl rfl hrate hy h.hearts_ok h.bubbles_ok h.bonus_ok

theorem heartMove_value (sf : ℚ) (h : Heart) : (heartMove sf h).value = h.value := by
  simp only [heartMove]; split_ifs <;> rfl

theorem HeartsOk.append_one {acc : List Heart} (ha : HeartsOk acc) {h : Heart}
    (hv : h.value = 1) : HeartsOk (acc ++ [h]) := by
  intro x hx
  rcases List.mem_append.1 hx with hm | hm
  · exact ha x hm
  · rw [List.mem_singleton] at hm; rw [hm]; exact hv

theorem den_one_of_one : (1 : ℚ).den = 1 := rfl

theorem MAX_PLAYER_LIVES_den : MAX_PLAYER_LIVES.den = 1 := by
  show ((10 : ℚ)).den = 1
  norm_num

theorem updateHeartsLoop_inv (env : Env) (sf : ℚ) :
    ∀ (ts : List Heart) (g : Game) (k : ℕ) (acc : List Heart),
      Inv g → HeartsOk ts → HeartsOk acc →
      Inv (updateHeartsLoop env sf ts g k acc).1 := by
  intro ts
  induction ts with
  | nil =>
    intro g k acc h _ hacc
    exact h.transfer rfl rfl rfl rfl rfl rfl hacc h.bubbles_ok h.bonus_ok
  | cons hh rest ih =>
    intro g k acc h hts hacc
    have hts' : HeartsOk rest := fun x hx => hts x (List.mem_cons_of_mem _ hx)
    have hv : (heartMove sf hh).value = 1 := by
      rw [heartMove_value]; exact hts hh (List.mem_cons_self _ _)
    simp only [updateHeartsLoop]
    split
    · split
      · next hlt =>
        refine ih _ _ _ (createExplosion_inv (createExplosion_inv ?_)) hts' hacc
        exact
          { oxygen_nonneg := h.oxygen_nonneg
            oxygen_le := h.oxygen_le
            lives_nonneg := by
              show (0:ℚ) ≤ min (g.playerLives + (heartMove sf hh).value) MAX_PLAYER_LIVES
              rw [hv]
              exact le_min (by linarith [h.lives_nonneg])
                (by rw [show MAX_PLAYER_LIVES = (10:ℚ) from rfl]; norm_num)
            lives_le := by
              show min (g.playerLives + (heartMove sf hh).value) MAX_PLAYER_LIVES ≤
                MAX_PLAYER_LIVES
              exact min_le_right _ _
            lives_int := by
              show (min (g.playerLives + (heartMove sf hh).value) MAX_PLAYER_LIVES).den = 1
              rw [hv]
              exact den_one_min (den_one_add h.lives_int den_one_of_one) MAX_PLAYER_LIVES_den
            lives_playing := by
              intro hs ho
              show (1:ℚ) ≤ min (g.playerLives + (heartMove sf hh).value) MAX_PLAYER_LIVES
              rw [hv]
              exact le_min (by linarith [h.lives_playing hs ho]) (by
                rw [show MAX_PLAYER_LIVES = (10:ℚ) from rfl]; norm_num)
            rate_nonneg := h.rate_nonneg
            diverY_nonneg := h.diverY_nonneg
            hearts_ok := h.hearts_ok
            bubbles_ok := h.bubbles_ok
            bonus_ok := h.bonus_ok }
      · exact ih _ _ _ h hts' hacc
    · exact ih _ _ _ h hts' (hacc.append_one hv)

theorem updateHearts_inv {env : Env} {dt : ℚ} {g : Game} {k : ℕ} (h : Inv g) :
    Inv (updateHearts env dt g k).1 :=
  updateHeartsLoop_inv env _ g.hearts g k [] h h.hearts_ok (fun x hx => absurd hx
    (List.not_mem_nil x))

theorem updateTreasuresLoop_inv (env : Env) (sf : ℚ) :
    ∀ (ts : List Treasure) (g : Game) (k : ℕ) (acc : List Treasure),
      Inv g → Inv (updateTreasuresLoop env sf ts g k acc).1 := by
  intro ts
  induction ts with
  | nil =>
    intro g k acc h
    exact h.transfer rfl rfl rfl rfl rfl rfl h.hearts_ok h.bubbles_ok h.bonus_ok
  | cons t rest ih =>
    intro g k acc h
    simp only [updateTreasuresLoop]
    split
    · refine ih _ _ _ (createExplosion_inv ?_)
      exact h.transfer rfl rfl rfl rfl rfl rfl h.hearts_ok h.bubbles_ok h.bonus_ok
    · exact ih _ _ _ h

theorem updateTreasures_inv {env : Env} {dt : ℚ} {g : Game} {k : ℕ} (h : Inv g) :
    Inv (updateTreasures env dt g k).1 :=
  updateTreasuresLoop_inv env _ g.treasures g k [] h

theorem enemyDropHeart_inv {env : Env} {e : Enemy} {g : Game} {k : ℕ} (h : Inv g) :
    Inv (enemyDropHeart env e g k).1 := by
  unfold enemyDropHeart
  split_ifs
  · exact generateHeart_inv h
  · exact h
  · exact h

theorem enemyDropTreasure_inv {env : Env} {e : Enemy} {g : Game} {k : ℕ} (h : Inv g) :
    Inv (enemyDropTreasure env e g k).1 := by
  unfold enemyDropTreasure
  split_ifs
  · exact generateTreasures_inv h
  · exact h
  · exact h

theorem oxygenDamage_inv {g : Game} (h : Inv g) :
    Inv { g with oxygen := max 0 (g.oxygen - 30) } where
  oxygen_nonneg := le_max_left 0 _
  oxygen_le := by
    show max 0 (g.oxygen - 30) ≤ MAX_OXYGEN
    have h1 := h.oxygen_le
    have h2 : (0:ℚ) ≤ MAX_OXYGEN := by norm_num [MAX_OXYGEN]
    exact max_le h2 (by linarith)
  lives_nonneg := h.lives_nonneg
  lives_le := h.lives_le
  lives_int := h.lives_int
  lives_playing := h.lives_playing
  rate_nonneg := h.rate_nonneg
  diverY_nonneg := h.diverY_nonneg
  hearts_ok := h.hearts_ok
  bubbles_ok := h.bubbles_ok
  bonus_ok := h.bonus_ok

theorem enemyPlayerHit_inv (env : Env) (g : Game) (e : Enemy) (k : ℕ) (h : Inv g) :
    Inv (enemyPlayerHit env g e k).1 := by
  simp only [enemyPlayerHit]
  obtain ⟨ps, k', heq⟩ := createExplosion_frame env _ _ _ _ _
  rw [heq]
  have h2 := oxygenDamage_inv h
  exact ⟨h2.1, h2.2, h2.3, h2.4, h2.5, h2.6, h2.7, h2.8, h2.9, h2.10, h2.11⟩

theorem enemyHarpoonHit_inv (env : Env) (g : Game) (e : Enemy) (i : ℕ) (k : ℕ)
    (h : Inv g) : Inv (enemyHarpoonHit env g e i k).1 := by
  simp only [enemyHarpoonHit]
  obtain ⟨ps, k', heq⟩ := createExplosion_frame env _ _ _ _ _
  rw [heq]
  split_ifs <;>
    exact ⟨h.1, h.2, h.3, h.4, h.5, h.6, h.7, h.8, h.9, h.10, h.11⟩

theorem updateEnemiesLoop_inv (env : Env) (sf : ℚ) :
    ∀ (es : List Enemy) (g : Game) (k : ℕ) (acc : List Enemy),
      Inv g → Inv (updateEnemiesLoop env sf es g k acc).1 := by
  intro es
  induction es with
  | nil =>
    intro g k acc h
    exact h.transfer rfl rfl rfl rfl rfl rfl h.hearts_ok h.bubbles_ok h.bonus_ok
  | cons e rest ih =>
    intro g k acc h
    simp only [updateEnemiesLoop]
    split_ifs with hcol
    case pos =>
      have hstep : Inv ((enemyPlayerHit env g (moveWrapEnemy env sf e) k).1) :=
        enemyPlayerHit_inv env g (moveWrapEnemy env sf e) k h
      split
      · exact ih _ _ _ hstep
      · split_ifs with hdead
        · exact ih _ _ _ (enemyDropTreasure_inv (enemyDropHeart_inv
            (enemyHarpoonHit_inv env _ _ _ _ hstep)))
        · exact ih _ _ _ (enemyHarpoonHit_inv env _ _ _ _ hstep)
    case neg =>
      split
      · exact ih _ _ _ h
      · split_ifs with hdead
        · exact ih _ _ _ (enemyDropTreasure_inv (enemyDropHeart_inv
            (enemyHarpoonHit_inv env _ _ _ _ h)))
        · exact ih _ _ _ (enemyHarpoonHit_inv env _ _ _ _ h)

theorem maybeSpawnEnemy_inv (env : Env) (sf : ℚ) {g : Game} {k : ℕ} (h : Inv g) :
    Inv (maybeSpawnEnemy env sf g k).1 := by
  unfold maybeSpawnEnemy
  split_ifs
  · exact generateEnemies_inv h
  · exact h
  · exact h

theorem updateEnemies_inv {env : Env} {dt : ℚ} {g : Game} {k : ℕ} (h : Inv g) :
    Inv (updateEnemies env dt g k).1 := by
  simp only [updateEnemies]
  exact maybeSpawnEnemy_inv env _ (updateEnemiesLoop_inv env _ g.enemies g k [] h)

/-- A score rewrite alone cannot break the invariant. -/
theorem Inv.score_set {g : Game} (h : Inv g) (s : ℚ) : Inv { g with score := s } :=
  ⟨h.1, h.2, h.3, h.4, h.5, h.6, h.7, h.8, h.9, h.10, h.11⟩

/-- A harpoon-list rewrite alone cannot break the invariant. -/
theorem Inv.harpoons_set {g : Game} (h : Inv g) (hp : List Harpoon) :
    Inv { g with harpoons := hp } :=
  ⟨h.1, h.2, h.3, h.4, h.5, h.6, h.7, h.8, h.9, h.10, h.11⟩

/-- A final-score rewrite alone cannot break the invariant. -/
theorem Inv.finalScore_set {g : Game} (h : Inv g) (s : ℚ) :
    Inv { g with finalScore := s } :=
  ⟨h.1, h.2, h.3, h.4, h.5, h.6, h.7, h.8, h.9, h.10, h.11⟩

/-- Rewriting only the combo counter and combo timer keeps the invariant. -/
theorem Inv.combo_set {g : Game} (h : Inv g) (c t : ℚ) :
    Inv { g with diver := { g.diver with comboCounter := c, comboTimer := t } } :=
  ⟨h.1, h.2, h.3, h.4, h.5, h.6, h.7, h.8, h.9, h.10, h.11⟩

theorem crabEatTreasures_inv (env : Env) (c : Crab) :
    ∀ (ts : List Treasure) (g : Game) (k : ℕ) (acc : List Treasure),
      Inv g → Inv (crabEatTreasures env c ts g k acc).1 := by
  intro ts
  induction ts with
  | nil =>
    intro g k acc h
    exact h.transfer rfl rfl rfl rfl rfl rfl h.hearts_ok h.bubbles_ok h.bonus_ok
  | cons t rest ih =>
    intro g k acc h
    simp only [crabEatTreasures]
    split_ifs
    · exact ih _ _ _ ((createExplosion_inv h).score_set _)
    · exact ih _ _ _ h

theorem crabEatHearts_inv (env : Env) (c : Crab) :
    ∀ (hs : List Heart) (g : Game) (k : ℕ) (acc : List Heart),
      Inv g → HeartsOk hs → HeartsOk acc →
      Inv (crabEatHearts env c hs g k acc).1 := by
  intro hs
  induction hs with
  | nil =>
    intro g k acc h _ hacc
    exact h.transfer rfl rfl rfl rfl rfl rfl hacc h.bubbles_ok h.bonus_ok
  | cons x rest ih =>
    intro g k acc h hhs hacc
    have hhs' : HeartsOk rest := fun y hy => hhs y (List.mem_cons_of_mem _ hy)
    have hx : x.value = 1 := hhs x (List.mem_cons_self _ _)
    simp only [crabEatHearts]
    split_ifs
    · exact ih _ _ _ (createExplosion_inv h) hhs' hacc
    · exact ih _ _ _ h hhs' (hacc.append_one hx)

theorem updateCrabsLoop_inv (env : Env) (sf : ℚ) :
    ∀ (cs : List Crab) (g : Game) (k : ℕ) (acc : List Crab),
      Inv g → Inv (updateCrabsLoop env sf cs g k acc).1 := by
  intro cs
  induction cs with
  | nil =>
    intro g k acc h
    exact h.transfer rfl rfl rfl rfl rfl rfl h.hearts_ok h.bubbles_ok h.bonus_ok
  | cons c rest ih =>
    intro g k acc h
    simp only [updateCrabsLoop]
    have h1 := crabEatTreasures_inv env (moveWrapCrab sf c) g.treasures g k [] h
    split
    · exact ih _ _ _ (crabEatHearts_inv env (moveWrapCrab sf c) _ _ _ [] h1 h1.hearts_ok
        (fun y hy => absurd hy (List.not_mem_nil y)))
    · exact ih _ _ _ (createExplosion_inv
        ((crabEatHearts_inv env (moveWrapCrab sf c) _ _ _ [] h1 h1.hearts_ok
          (fun y hy => absurd hy (List.not_mem_nil y))).harpoons_set _))

theorem maybeSpawnCrab_inv (env : Env) (sf : ℚ) {g : Game} {k : ℕ} (h : Inv g) :
    Inv (maybeSpawnCrab env sf g k).1 := by
  unfold maybeSpawnCrab
  split_ifs
  · exact generateCrab_inv h
  · exact h
  · exact h

theorem updateCrabs_inv {env : Env} {dt : ℚ} {g : Game} {k : ℕ} (h : Inv g) :
    Inv (updateCrabs env dt g k).1 := by
  simp only [updateCrabs]
  exact updateCrabsLoop_inv env _ _ _ _ [] (maybeSpawnCrab_inv env _ h)

theorem BubblesOk.append_bubble {acc : List OxygenBubble} (ha : BubblesOk acc) {b : OxygenBubble}
    (hb : 0 ≤ b.oxygenAmount) : BubblesOk (acc ++ [b]) := by
  intro x hx
  rcases List.mem_append.1 hx with hm | hm
  · exact ha x hm
  · rw [List.mem_singleton] at hm; rw [hm]; exact hb

theorem bubbleMove_oxygenAmount (env : Env) (sf : ℚ) (b : OxygenBubble) :
    (bubbleMove env sf b).oxygenAmount = b.oxygenAmount := by
  simp only [bubbleMove]
  rcases b.pulse with _ | p
  · rfl
  · split_ifs <;> rfl

/-- A capped oxygen pickup keeps the invariant. -/
theorem Inv.oxygen_pickup {g : Game} (h : Inv g) (amt : ℚ) (hamt : 0 ≤ amt) :
    Inv { g with oxygen := min MAX_OXYGEN (g.oxygen + amt) } where
  oxygen_nonneg := le_min (by norm_num [MAX_OXYGEN]) (by linarith [h.oxygen_nonneg])
  oxygen_le := min_le_left _ _
  lives_nonneg := h.lives_nonneg
  lives_le := h.lives_le
  lives_int := h.lives_int
  lives_playing := h.lives_playing
  rate_nonneg := h.rate_nonneg
  diverY_nonneg := h.diverY_nonneg
  hearts_ok := h.hearts_ok
  bubbles_ok := h.bubbles_ok
  bonus_ok := h.bonus_ok

theorem updateOxygenBubblesLoop_inv (env : Env) (sf : ℚ) :
    ∀ (bs : List OxygenBubble) (g : Game) (k : ℕ) (acc : List OxygenBubble),
      Inv g → BubblesOk bs → BubblesOk acc →
      Inv (updateOxygenBubblesLoop env sf bs g k acc).1 := by
  intro bs
  induction bs with
  | nil =>
    intro g k acc h _ hacc
    exact h.transfer rfl rfl rfl rfl rfl rfl h.hearts_ok hacc h.bonus_ok
  | cons b rest ih =>
    intro g k acc h hbs hacc
    have hbs' : BubblesOk rest := fun y hy => hbs y (List.mem_cons_of_mem _ hy)
    have hb : 0 ≤ b.oxygenAmount := hbs b (List.mem_cons_self _ _)
    have hbm : 0 ≤ (bubbleMove env sf b).oxygenAmount := by
      rw [bubbleMove_oxygenAmount]; exact hb
    simp only [updateOxygenBubblesLoop]
    split_ifs
    · exact ih _ _ _ (createExplosion_inv (h.oxygen_pickup _ hbm)) hbs' hacc
    · exact ih _ _ _ h hbs' hacc
    · exact ih _ _ _ h hbs' (hacc.append_bubble hbm)

theorem bool_not_true_eq_false {b : Bool} (hb : ¬b = true) : b = false := by
  cases b
  · rfl
  · exact absurd rfl hb

theorem maybeSpawnSmallBubbles_inv (env : Env) (henv : env.Ok) (sf : ℚ) {g : Game} {k : ℕ}
    (h : Inv g) : Inv (maybeSpawnSmallBubbles env sf g k).1 := by
  unfold maybeSpawnSmallBubbles
  split_ifs
  · exact generateOxygenBubbles_inv henv h
  · exact h

theorem maybeSpawnLargeBubble_inv (env : Env) (henv : env.Ok) (sf : ℚ) {g : Game} {k : ℕ}
    (h : Inv g) : Inv (maybeSpawnLargeBubble env sf g k).1 := by
  unfold maybeSpawnLargeBubble
  split_ifs
  · exact generateLargeOxygenBubble_inv henv h
  · exact h

theorem handleOxygenDepleted_inv (env : Env) (g : Game) (k : ℕ) (h : Inv g)
    (hs : g.gameStarted = true) (ho : g.gameOver = false) :
    Inv (handleOxygenDepleted env g k).1 := by
  have hlive : 1 ≤ g.playerLives := h.lives_playing hs ho
  simp only [handleOxygenDepleted, endGame]
  obtain ⟨ps, k', heq⟩ := createExplosion_frame env _ _ _ _ _
  rw [heq]
  split_ifs with hpos
  · have hpos' : 0 < g.playerLives - 1 := hpos
    exact
      { oxygen_nonneg := by show (0:ℚ) ≤ MAX_OXYGEN / 2; norm_num [MAX_OXYGEN]
        oxygen_le := by show MAX_OXYGEN / 2 ≤ MAX_OXYGEN; norm_num [MAX_OXYGEN]
        lives_nonneg := by show (0:ℚ) ≤ g.playerLives - 1; linarith
        lives_le := by
          show g.playerLives - 1 ≤ MAX_PLAYER_LIVES
          have := h.lives_le
          linarith
        lives_int := den_one_sub_one h.lives_int
        lives_playing := fun _ _ =>
          den_one_pos_ge_one (den_one_sub_one h.lives_int) hpos'
        rate_nonneg := h.rate_nonneg
        diverY_nonneg := by show (0:ℚ) ≤ canvasH / 2; norm_num [canvasH]
        hearts_ok := h.hearts_ok
        bubbles_ok := h.bubbles_ok
        bonus_ok := h.bonus_ok }
  · exact
      { oxygen_nonneg := h.oxygen_nonneg
        oxygen_le := h.oxygen_le
        lives_nonneg := by show (0:ℚ) ≤ g.playerLives - 1; linarith
        lives_le := by
          show g.playerLives - 1 ≤ MAX_PLAYER_LIVES
          have := h.lives_le
          linarith
        lives_int := den_one_sub_one h.lives_int
        lives_playing := fun _ hov => nomatch hov
        rate_nonneg := h.rate_nonneg
        diverY_nonneg := h.diverY_nonneg
        hearts_ok := h.hearts_ok
        bubbles_ok := h.bubbles_ok
        bonus_ok := h.bonus_ok }

theorem checkOxygenDepleted_inv (env : Env) {g : Game} {k : ℕ} (h : Inv g) :
    Inv (checkOxygenDepleted env g k).1 := by
  unfold checkOxygenDepleted
  split_ifs with hcond
  · obtain ⟨h1, h2, h3⟩ := hcond
    exact handleOxygenDepleted_inv env _ _ h h2 (bool_not_true_eq_false h3)
  · exact h

theorem updateOxygenBubbles_inv (env : Env) (henv : env.Ok) (dt : ℚ) (hdt : 0 ≤ dt)
    {g : Game} {k : ℕ} (h : Inv g) : Inv (updateOxygenBubbles env dt g k).1 := by
  have hsf : 0 ≤ scaleOf dt := by
    unfold scaleOf
    exact div_nonneg hdt (by norm_num)
  have hdep : 0 ≤ g.diver.oxygenDepletionRate * (1 + g.diver.y / canvasH) * scaleOf dt := by
    have h1 := h.rate_nonneg
    have h2 := h.diverY_nonneg
    have h3 : (0:ℚ) ≤ 1 + g.diver.y / canvasH := by
      have h4 : (0:ℚ) ≤ g.diver.y / canvasH := div_nonneg h2 (by norm_num [canvasH])
      linarith
    exact mul_nonneg (mul_nonneg h1 h3) hsf
  have hd : Inv { g with oxygen := max 0 (g.oxygen - g.diver.oxygenDepletionRate * (1 + g.diver.y / canvasH) * scaleOf dt) } :=
    { oxygen_nonneg := le_max_left 0 _
      oxygen_le := by
        refine max_le (by norm_num [MAX_OXYGEN]) ?_
        have := h.oxygen_le
        linarith
      lives_nonneg := h.lives_nonneg
      lives_le := h.lives_le
      lives_int := h.lives_int
      lives_playing := h.lives_playing
      rate_nonneg := h.rate_nonneg
      diverY_nonneg := h.diverY_nonneg
      hearts_ok := h.hearts_ok
      bubbles_ok := h.bubbles_ok
      bonus_ok := h.bonus_ok }
  simp only [updateOxygenBubbles]
  exact checkOxygenDepleted_inv env
    (maybeSpawnLargeBubble_inv env henv _ (maybeSpawnSmallBubbles_inv env henv _
      (updateOxygenBubblesLoop_inv env _ _ _ _ [] hd hd.bubbles_ok
        (fun y hy => absurd hy (List.not_mem_nil y)))))

theorem bonusMove_value (sf : ℚ) (b : OxygenBonus) :
    (bonusMove sf b).value = b.value := by
  simp only [bonusMove]
  split_ifs <;> rfl

theorem BonusOk.append_bonus {acc : List OxygenBonus} (ha : BonusOk acc) {b : OxygenBonus}
    (hb : 0 ≤ b.value) : BonusOk (acc ++ [b]) := by
  intro x hx
  rcases List.mem_append.1 hx with hm | hm
  · exact ha x hm
  · rw [List.mem_singleton] at hm; rw [hm]; exact hb

theorem updateOxygenBonusLoop_inv (env : Env) (sf : ℚ) :
    ∀ (bs : List OxygenBonus) (g : Game) (k : ℕ) (acc : List OxygenBonus),
      Inv g → BonusOk bs → BonusOk acc →
      Inv (updateOxygenBonusLoop env sf bs g k acc).1 := by
  intro bs
  induction bs with
  | nil =>
    intro g k acc h _ hacc
    exact h.transfer rfl rfl rfl rfl rfl rfl h.hearts_ok h.bubbles_ok hacc
  | cons b rest ih =>
    intro g k acc h hbs hacc
    have hbs' : BonusOk rest := fun y hy => hbs y (List.mem_cons_of_mem _ hy)
    have hb : 0 ≤ b.value := hbs b (List.mem_cons_self _ _)
    have hbm : 0 ≤ (bonusMove sf b).value := by rw [bonusMove_value]; exact hb
    simp only [updateOxygenBonusLoop]
    split_ifs
    · -- reached the surface: 1.5x value, score, combo, three bursts
      refine ih _ _ _ (createExplosion_inv (createExplosion_inv (createExplosion_inv
        ?_))) hbs' hacc
      exact ((h.oxygen_pickup _ (mul_nonneg hbm (by norm_num))).score_set _).combo_set _ _
    · -- destroyed by a hostile: no reward
      exact ih _ _ _ (createExplosion_inv (createExplosion_inv h)) hbs' hacc
    · -- collected by the player: full value, score, combo, two bursts
      refine ih _ _ _ (createExplosion_inv (createExplosion_inv ?_)) hbs' hacc
      exact ((h.oxygen_pickup _ hbm).score_set _).combo_set _ _
    · exact ih _ _ _ h hbs' (hacc.append_bonus hbm)
    · exact ih _ _ _ h hbs' hacc

theorem maybeSpawnBonus_inv (env : Env) (sf : ℚ) {g : Game} {k : ℕ} (h : Inv g) :
    Inv (maybeSpawnBonus env sf g k).1 := by
  unfold maybeSpawnBonus
  split_ifs
  · exact generateOxygenBonus_inv h
  · exact h
  · exact h

theorem updateOxygenBonus_inv (env : Env) (dt : ℚ) {g : Game} {k : ℕ} (h : Inv g) :
    Inv (updateOxygenBonus env dt g k).1 := by
  simp only [updateOxygenBonus]
  have hsp := maybeSpawnBonus_inv env (scaleOf dt) (k := k) h
  exact updateOxygenBonusLoop_inv env _ _ _ _ [] hsp hsp.bonus_ok
    (fun y hy => absurd hy (List.not_mem_nil y))

theorem updateParticles_inv (dt : ℚ) {g : Game} (h : Inv g) :
    Inv (updateParticles dt g) :=
  h.transfer rfl rfl rfl rfl rfl rfl h.hearts_ok h.bubbles_ok h.bonus_ok

theorem updateLevel_inv (env : Env) (henv : env.Ok) {g : Game} {k : ℕ} (h : Inv g) :
    Inv (updateLevel env g k).1 := by
  simp only [updateLevel]
  split_ifs with hc
  · refine createLevelUpEffect_inv (generateOxygenBubbles_inv henv
      (generateEnemies_inv ?_))
    exact
      { oxygen_nonneg := h.oxygen_nonneg
        oxygen_le := h.oxygen_le
        lives_nonneg := h.lives_nonneg
        lives_le := h.lives_le
        lives_int := h.lives_int
        lives_playing := h.lives_playing
        rate_nonneg := by
          show (0:ℚ) ≤ g.diver.oxygenDepletionRate + (2/100)
          have := h.rate_nonneg
          linarith
        diverY_nonneg := h.diverY_nonneg
        hearts_ok := h.hearts_ok
        bubbles_ok := h.bubbles_ok
        bonus_ok := h.bonus_ok }
  · exact h

/-- Every subsystem of the tick preserves the world-state invariant, hence
so does the whole tick. -/
theorem tickUpdate_inv (env : Env) (henv : env.Ok) (dt : ℚ) (hdt : 0 ≤ dt)
    (g : Game) (k : ℕ) (h : Inv g) : Inv (tickUpdate env dt g k).1 := by
  simp only [tickUpdate]
  exact updateLevel_inv env henv (updateParticles_inv dt (updateOxygenBonus_inv env dt
    (updateOxygenBubbles_inv env henv dt hdt (updateCrabs_inv (updateEnemies_inv
      (updateHearts_inv (updateTreasures_inv (updateWeaponSystem_inv
        (updateDiver_inv h)))))))))

theorem initReset_inv (now : ℚ) (g : Game) : Inv (initReset now g) where
  oxygen_nonneg := by show (0:ℚ) ≤ MAX_OXYGEN; norm_num [MAX_OXYGEN]
  oxygen_le := le_refl _
  lives_nonneg := by show (0:ℚ) ≤ 3; norm_num
  lives_le := by show (3:ℚ) ≤ MAX_PLAYER_LIVES; norm_num [MAX_PLAYER_LIVES]
  lives_int := by show ((3:ℚ)).den = 1; norm_num
  lives_playing := fun _ _ => by show (1:ℚ) ≤ 3; norm_num
  rate_nonneg := by show (0:ℚ) ≤ (5/100); norm_num
  diverY_nonneg := by show (0:ℚ) ≤ canvasH / 2; norm_num [canvasH]
  hearts_ok := fun x hx => absurd hx (List.not_mem_nil x)
  bubbles_ok := fun x hx => absurd hx (List.not_mem_nil x)
  bonus_ok := fun x hx => absurd hx (List.not_mem_nil x)

/-- A freshly initialized session satisfies the world-state invariant. -/
theorem initGame_inv (env : Env) (henv : env.Ok) (now : ℚ) (k : ℕ) :
    Inv (initGame env now k).1 := by
  simp only [initGame, init]
  exact (generateCrab_inv (generateLargeOxygenBubble_inv henv
    (generateOxygenBubbles_inv henv (generateEnemies_inv
      (initReset_inv now (freshGame now)))))).finalScore_set 0

theorem cenv_ok : cenv.Ok := by
  intro n
  constructor
  · show (0:ℚ) ≤ 1/2
    with_unfolding_all decide
  · show (1/2:ℚ) < 1
    with_unfolding_all decide

theorem freshGame_inv : Inv (freshGame 0) where
  oxygen_nonneg := by with_unfolding_all decide
  oxygen_le := by with_unfolding_all decide
  lives_nonneg := by with_unfolding_all decide
  lives_le := by with_unfolding_all decide
  lives_int := by with_unfolding_all decide
  lives_playing := fun hs _ => nomatch hs
  rate_nonneg := by with_unfolding_all decide
  diverY_nonneg := by with_unfolding_all decide
  hearts_ok := fun x hx => nomatch hx
  bubbles_ok := fun x hx => nomatch hx
  bonus_ok := fun x hx => nomatch hx

-- --- Claims ---

/-- **C1.** After every tick's update, the world state satisfies
`0 ≤ oxygen ≤ MAX_OXYGEN` (300) and `0 ≤ lives ≤ MAX_PLAYER_LIVES` (10):
every oxygen loss (depth depletion, enemy damage) is floored at 0, every
oxygen gain (bubbles, bonus) is capped at `MAX_OXYGEN`, and heart
collection never raises lives above the cap.  Formally: the invariant
`Inv` (which contains exactly these bounds plus the auxiliary facts that
make them inductive) holds of every freshly initialized session and is
preserved by `tickUpdate` for every nonnegative `Δt` and random oracle
producing values in `[0,1)`; in particular the bounds hold after every
tick. -/
theorem C1_tick_oxygen_lives_bounds (env : Env) (henv : env.Ok) (dt : ℚ)
    (hdt : 0 ≤ dt) (g : Game) (k : ℕ) (h : Inv g) :
    Inv (tickUpdate env dt g k).1 ∧
    0 ≤ (tickUpdate env dt g k).1.oxygen ∧
    (tickUpdate env dt g k).1.oxygen ≤ MAX_OXYGEN ∧
    0 ≤ (tickUpdate env dt g k).1.playerLives ∧
    (tickUpdate env dt g k).1.playerLives ≤ MAX_PLAYER_LIVES ∧
    ∀ (now : ℚ) (k0 : ℕ), Inv (initGame env now k0).1 := by
  have ht := tickUpdate_inv env henv dt hdt g k h
  exact ⟨ht, ht.oxygen_nonneg, ht.oxygen_le, ht.lives_nonneg, ht.lives_le,
    fun now k0 => initGame_inv env henv now k0⟩

/-- Witness for C1 at a concrete input: the fresh session, one 60 Hz tick. -/
theorem C1_tick_oxygen_lives_bounds_witness :
    cenv.Ok ∧ (0:ℚ) ≤ 50/3 ∧ Inv (freshGame 0) ∧
    0 ≤ (tickUpdate cenv (50/3) (freshGame 0) 0).1.oxygen ∧
    (tickUpdate cenv (50/3) (freshGame 0) 0).1.oxygen ≤ MAX_OXYGEN ∧
    0 ≤ (tickUpdate cenv (50/3) (freshGame 0) 0).1.playerLives ∧
    (tickUpdate cenv (50/3) (freshGame 0) 0).1.playerLives ≤ MAX_PLAYER_LIVES := by
  have h := C1_tick_oxygen_lives_bounds cenv cenv_ok (50/3)
    (by with_unfolding_all decide) (freshGame 0) 0 freshGame_inv
  exact ⟨cenv_ok, by with_unfolding_all decide, freshGame_inv,
    h.2.1, h.2.2.1, h.2.2.2.1, h.2.2.2.2.1⟩

theorem generateOxygenBubblesLoop_frame0 (env : Env) :
    ∀ (n : ℕ) (g : Game) (k : ℕ),
      ∃ bs k', generateOxygenBubblesLoop env n g k = ({ g with oxygenBubbles := bs }, k') := by
  intro n
  induction n with
  | zero => intro g k; exact ⟨g.oxygenBubbles, k, rfl⟩
  | succ n ih =>
    intro g k
    simpa only [generateOxygenBubblesLoop] using ih _ (k + 5)

theorem maybeSpawnSmallBubbles_frame (env : Env) (sf : ℚ) (g : Game) (k : ℕ) :
    ∃ bs k', maybeSpawnSmallBubbles env sf g k = ({ g with oxygenBubbles := bs }, k') := by
  unfold maybeSpawnSmallBubbles
  split_ifs
  · exact generateOxygenBubblesLoop_frame0 env _ g (k + 1)
  · exact ⟨g.oxygenBubbles, k + 1, rfl⟩

theorem maybeSpawnLargeBubble_frame (env : Env) (sf : ℚ) (g : Game) (k : ℕ) :
    ∃ bs k', maybeSpawnLargeBubble env sf g k = ({ g with oxygenBubbles := bs }, k') := by
  unfold maybeSpawnLargeBubble
  split_ifs
  · exact ⟨_, k + 1 + 5, rfl⟩
  · exact ⟨g.oxygenBubbles, k + 1, rfl⟩

theorem tickUpdate_split (env : Env) (dt : ℚ) (g : Game) (k : ℕ) :
    tickUpdate env dt g k =
      tickRest env dt (tickPrefix6 env dt g k).1 (tickPrefix6 env dt g k).2 := by
  unfold tickUpdate tickPrefix6
  rcases hT : updateTreasures env dt
      (updateWeaponSystem env dt (updateDiver env dt g)) k with ⟨g3, k3⟩
  simp only [hT]
  rcases hH : updateHearts env dt g3 k3 with ⟨g4, k4⟩
  simp only [hH]
  rcases hE : updateEnemies env dt g4 k4 with ⟨g5, k5⟩
  simp only [hE]
  rcases hC : updateCrabs env dt g5 k5 with ⟨g6, k6⟩
  simp only [hC]
  simp only [tickRest]

theorem updateOxygenBubbles_no_bubbles (env : Env) (dt : ℚ) (g : Game) (k : ℕ)
    (hnb : g.oxygenBubbles = [])
    (hpos : 0 < g.oxygen -
      g.diver.oxygenDepletionRate * (1 + g.diver.y / canvasH) * scaleOf dt) :
    ∃ bs k', updateOxygenBubbles env dt g k =
      ({ g with
          oxygen := g.oxygen -
            g.diver.oxygenDepletionRate * (1 + g.diver.y / canvasH) * scaleOf dt,
          oxygenBubbles := bs }, k') := by
  have hmax : max 0 (g.oxygen -
      g.diver.oxygenDepletionRate * (1 + g.diver.y / canvasH) * scaleOf dt) =
      g.oxygen - g.diver.oxygenDepletionRate * (1 + g.diver.y / canvasH) * scaleOf dt :=
    max_eq_right (le_of_lt hpos)
  simp only [updateOxygenBubbles]
  rw [hnb]
  simp only [updateOxygenBubblesLoop]
  obtain ⟨bs1, k1, heq1⟩ := maybeSpawnSmallBubbles_frame env (scaleOf dt) _ _
  rw [heq1]
  obtain ⟨bs2, k2, heq2⟩ := maybeSpawnLargeBubble_frame env (scaleOf dt) _ _
  rw [heq2]
  unfold checkOxygenDepleted
  split_ifs with hcond
  · exact absurd hcond.1 (not_le.2 (lt_of_lt_of_le hpos (le_max_right 0 _)))
  · exact ⟨bs2, k2, by rw [hmax]⟩

theorem updateOxygenBonus_nil (env : Env) (dt : ℚ) (g : Game) (k : ℕ)
    (h : g.oxygenBonus = [])
    (hch : ¬(env.rand k < (5/10000) * scaleOf dt)) :
    updateOxygenBonus env dt g k = ({ g with oxygenBonus := [] }, k + 1) := by
  simp only [updateOxygenBonus, maybeSpawnBonus]
  rw [if_pos (show g.oxygenBonus.length = 0 by rw [h]; rfl), if_neg hch]
  simp only [h, updateOxygenBonusLoop]

theorem updateLevel_id (env : Env) (g : Game) (k : ℕ)
    (h : ¬(g.score ≥ 2000 * g.level ∧ g.level < 5)) :
    updateLevel env g k = (g, k) := by
  unfold updateLevel
  rw [if_neg h]

theorem tickRest_oxygen (env : Env) (dt : ℚ) (g : Game) (k : ℕ)
    (hnb : g.oxygenBubbles = [])
    (hbonus : g.oxygenBonus = [])
    (hpos : 0 < g.oxygen -
      g.diver.oxygenDepletionRate * (1 + g.diver.y / canvasH) * scaleOf dt)
    (hch : ∀ j, ¬(env.rand j < (5/10000) * scaleOf dt))
    (hlevel : ¬(g.score ≥ 2000 * g.level ∧ g.level < 5)) :
    (tickRest env dt g k).1.oxygen =
      g.oxygen - g.diver.oxygenDepletionRate * (1 + g.diver.y / canvasH) * scaleOf dt := by
  unfold tickRest
  obtain ⟨bs, k7, hB⟩ := updateOxygenBubbles_no_bubbles env dt g k hnb hpos
  simp only [hB]
  rw [updateOxygenBonus_nil env dt
    ({ g with
        oxygen := g.oxygen -
          g.diver.oxygenDepletionRate * (1 + g.diver.y / canvasH) * scaleOf dt,
        oxygenBubbles := bs }) k7 hbonus (hch k7)]
  rw [updateLevel_id env
    (updateParticles dt
      { g with
          oxygen := g.oxygen -
            g.diver.oxygenDepletionRate * (1 + g.diver.y / canvasH) * scaleOf dt,
          oxygenBubbles := bs,
          oxygenBonus := [] }) (k7 + 1) hlevel]
  rfl

set_option maxRecDepth 1500 in
/-- **C4.** For every tick in the playing state, the depletion phase of
`updateOxygenBubbles` decreases oxygen by exactly
`oxygenDepletionRate × (1.0 + depthFactor) × scaleFactor` (floored at 0),
where `depthFactor = playerY / arenaHeight` and
`scaleFactor = Δt / (1000/60)`; stated here for a state with no bubbles in
flight and a positive post-depletion level (so no pickup or death rewrites
oxygen afterwards).  Moreover, in the fresh-session scenario
(`oxygenDepletionRate = 0.05`, `Δt = 16.7 ms`, player at `y = 0`) one full
tick leaves oxygen at exactly `299.9499 ≈ 299.95`. -/
theorem C4_depth_scaled_oxygen_depletion (env : Env) (dt : ℚ) (g : Game) (k : ℕ)
    (hnb : g.oxygenBubbles = [])
    (hpos : 0 < g.oxygen -
      g.diver.oxygenDepletionRate * (1 + g.diver.y / canvasH) * scaleOf dt) :
    (updateOxygenBubbles env dt g k).1.oxygen =
      g.oxygen - g.diver.oxygenDepletionRate * (1 + g.diver.y / canvasH) * scaleOf dt ∧
    (tickUpdate cenv (167/10) c4game 0).1.oxygen = 2999499/10000 ∧
    |(tickUpdate cenv (167/10) c4game 0).1.oxygen - 29995/100| ≤ 1/1000 := by
  have hM_ox : (tickPrefix6 cenv (167/10) c4game 0).1.oxygen = 300 := by
    with_unfolding_all decide
  have hM_rate :
      (tickPrefix6 cenv (167/10) c4game 0).1.diver.oxygenDepletionRate = 5/100 := by
    with_unfolding_all decide
  have hM_y : (tickPrefix6 cenv (167/10) c4game 0).1.diver.y = 0 := by
    with_unfolding_all decide
  have hM_nb : (tickPrefix6 cenv (167/10) c4game 0).1.oxygenBubbles = [] := by
    with_unfolding_all decide
  have hM_bonus : (tickPrefix6 cenv (167/10) c4game 0).1.oxygenBonus = [] := by
    with_unfolding_all decide
  have hM_score : (tickPrefix6 cenv (167/10) c4game 0).1.score = 0 := by
    with_unfolding_all decide
  have hM_level : (tickPrefix6 cenv (167/10) c4game 0).1.level = 1 := by
    with_unfolding_all decide
  have hval : (tickUpdate cenv (167/10) c4game 0).1.oxygen = 2999499/10000 := by
    rw [tickUpdate_split]
    rw [tickRest_oxygen cenv (167/10) _ _ hM_nb hM_bonus
      (by rw [hM_ox, hM_rate, hM_y]; norm_num [scaleOf, canvasH])
      (fun j => by show ¬((1/2 : ℚ) < _); norm_num [scaleOf])
      (by rw [hM_score, hM_level]; norm_num)]
    rw [hM_ox, hM_rate, hM_y]
    norm_num [scaleOf, canvasH]
  refine ⟨?_, hval, by rw [hval, abs_le]; norm_num⟩
  obtain ⟨bs, k', h⟩ := updateOxygenBubbles_no_bubbles env dt g k hnb hpos
  rw [h]

/-- Witness for C4: the c4game state before the tick (no bubbles, positive
post-depletion oxygen), with the depletion law evaluated there. -/
theorem C4_depth_scaled_oxygen_depletion_witness :
    (c4game.oxygenBubbles = [] ∧
     0 < c4game.oxygen - c4game.diver.oxygenDepletionRate *
       (1 + c4game.diver.y / canvasH) * scaleOf (167/10)) ∧
    (updateOxygenBubbles cenv (167/10) c4game 0).1.oxygen =
      c4game.oxygen - c4game.diver.oxygenDepletionRate *
        (1 + c4game.diver.y / canvasH) * scaleOf (167/10) := by
  have hpos : 0 < c4game.oxygen - c4game.diver.oxygenDepletionRate *
      (1 + c4game.diver.y / canvasH) * scaleOf (167/10) := by
    show (0:ℚ) < 300 - 5/100 * (1 + 0 / canvasH) * scaleOf (167/10)
    norm_num [scaleOf, canvasH]
  exact ⟨⟨rfl, hpos⟩,
    (C4_depth_scaled_oxygen_depletion cenv (167/10) c4game 0 rfl hpos).1⟩

/-- **C2.** When oxygen reaches 0 during a playing session (`oxygen ≤ 0`,
started, not over), the oxygen-depletion check fires: lives drop by one;
if lives remain positive, the player respawns at the arena center with
exactly `MAX_OXYGEN / 2` oxygen, cleared combo counter and timer, and a
shield for 180 frame-units, with the session still running; otherwise the
session transitions to game over and the recorded final score equals the
score at the moment of transition. -/
theorem C2_oxygen_death (env : Env) (g : Game) (k : ℕ)
    (hox : g.oxygen ≤ 0) (hst : g.gameStarted = true) (hgo : g.gameOver = false) :
    (checkOxygenDepleted env g k).1.playerLives = g.playerLives - 1 ∧
    (0 < g.playerLives - 1 →
      ((checkOxygenDepleted env g k).1.oxygen = MAX_OXYGEN / 2 ∧
       (checkOxygenDepleted env g k).1.diver.x = canvasW / 2 ∧
       (checkOxygenDepleted env g k).1.diver.y = canvasH / 2 ∧
       (checkOxygenDepleted env g k).1.diver.comboCounter = 0 ∧
       (checkOxygenDepleted env g k).1.diver.comboTimer = 0 ∧
       (checkOxygenDepleted env g k).1.diver.isShieldActive = true ∧
       (checkOxygenDepleted env g k).1.diver.shieldTimer = 180 ∧
       (checkOxygenDepleted env g k).1.gameStarted = true ∧
       (checkOxygenDepleted env g k).1.gameOver = false)) ∧
    (¬(0 < g.playerLives - 1) →
      ((checkOxygenDepleted env g k).1.gameOver = true ∧
       (checkOxygenDepleted env g k).1.finalScore = g.score)) := by
  unfold checkOxygenDepleted
  rw [if_pos (show g.oxygen ≤ 0 ∧ g.gameStarted ∧ ¬g.gameOver by
    refine ⟨hox, by rw [hst], ?_⟩
    intro h
    rw [hgo] at h
    exact Bool.false_ne_true h)]
  unfold handleOxygenDepleted
  obtain ⟨ps, k1, hC⟩ := createExplosion_frame env
    ({ g with playerLives := g.playerLives - 1 }.diver.x +
      { g with playerLives := g.playerLives - 1 }.diver.width / 2)
    ({ g with playerLives := g.playerLives - 1 }.diver.y +
      { g with playerLives := g.playerLives - 1 }.diver.height / 2)
    "#ff0000" ({ g with playerLives := g.playerLives - 1 }) k
  simp only [hC]
  split_ifs with hl
  · exact ⟨rfl,
      fun _ => ⟨rfl, rfl, rfl, rfl, rfl, rfl, rfl, hst, hgo⟩,
      fun hneg => absurd hl hneg⟩
  · exact ⟨rfl, fun hpos => absurd hpos hl, fun _ => ⟨rfl, rfl⟩⟩

/-- Witness for C2: the just-depleted session `c2game` (oxygen 0, started,
3 lives), where the respawn branch applies. -/
theorem C2_oxygen_death_witness :
    (c2game.oxygen ≤ 0 ∧ c2game.gameStarted = true ∧ c2game.gameOver = false ∧
     0 < c2game.playerLives - 1) ∧
    ((checkOxygenDepleted cenv c2game 0).1.playerLives = c2game.playerLives - 1 ∧
     (checkOxygenDepleted cenv c2game 0).1.oxygen = MAX_OXYGEN / 2 ∧
     (checkOxygenDepleted cenv c2game 0).1.diver.shieldTimer = 180) := by
  have hl : 0 < c2game.playerLives - 1 := by
    show (0:ℚ) < 3 - 1
    norm_num
  have h := C2_oxygen_death cenv c2game 0 (le_of_eq rfl) rfl rfl
  exact ⟨⟨le_of_eq rfl, rfl, rfl, hl⟩,
    h.1, (h.2.1 hl).1, (h.2.1 hl).2.2.2.2.2.2.1⟩

theorem enemyHarpoonHit_health (env : Env) (g : Game) (e : Enemy) (i k : ℕ) :
    (enemyHarpoonHit env g e i k).2.1.health = e.health - 1 := by
  obtain ⟨ps, k1, hC⟩ := createExplosion_frame env (e.x + e.width/2)
    (e.y + e.height/2) e.color g k
  simp only [enemyHarpoonHit, hC]

/-- **C3.** A harpoon–hostile collision (first matching harpoon index `i`,
no unshielded player contact this step): the hostile's health drops by
exactly 1; the score gains `25 × (combo+1)` on the killing hit and
`10 × (combo+1)` otherwise; the combo counter increments and the combo
timer refills to the full 180-frame window; the harpoon is consumed; and
the per-enemy loop removes a killed hostile from the collection while
retaining a surviving one (with its reduced health). -/
theorem C3_harpoon_hit (env : Env) (sf : ℚ) (g : Game) (e : Enemy)
    (i k : ℕ) (acc : List Enemy)
    (hnp : ¬(isColliding g.diver.rect true (moveWrapEnemy env sf e).rect
        (moveWrapEnemy env sf e).isShark ∧ ¬g.diver.isShieldActive))
    (hfind : g.harpoons.findIdx? (fun h => isColliding (harpoonRect h) false
        (moveWrapEnemy env sf e).rect (moveWrapEnemy env sf e).isShark) = some i) :
    (enemyHarpoonHit env g (moveWrapEnemy env sf e) i k).2.1.health =
      (moveWrapEnemy env sf e).health - 1 ∧
    ((moveWrapEnemy env sf e).health - 1 ≤ 0 →
      (enemyHarpoonHit env g (moveWrapEnemy env sf e) i k).1.score =
        g.score + 25 * (g.diver.comboCounter + 1)) ∧
    (¬((moveWrapEnemy env sf e).health - 1 ≤ 0) →
      (enemyHarpoonHit env g (moveWrapEnemy env sf e) i k).1.score =
        g.score + 10 * (g.diver.comboCounter + 1)) ∧
    (enemyHarpoonHit env g (moveWrapEnemy env sf e) i k).1.diver.comboCounter =
      g.diver.comboCounter + 1 ∧
    (enemyHarpoonHit env g (moveWrapEnemy env sf e) i k).1.diver.comboTimer =
      COMBO_TIMEOUT_FRAMES ∧
    (enemyHarpoonHit env g (moveWrapEnemy env sf e) i k).1.harpoons =
      g.harpoons.eraseIdx i ∧
    ((moveWrapEnemy env sf e).health - 1 ≤ 0 →
      (updateEnemiesLoop env sf [e] g k acc).1.enemies = acc) ∧
    (¬((moveWrapEnemy env sf e).health - 1 ≤ 0) →
      ∃ e', (updateEnemiesLoop env sf [e] g k acc).1.enemies = acc ++ [e'] ∧
        e'.health = (moveWrapEnemy env sf e).health - 1) := by
  obtain ⟨ps, k1, hC⟩ := createExplosion_frame env
    ((moveWrapEnemy env sf e).x + (moveWrapEnemy env sf e).width/2)
    ((moveWrapEnemy env sf e).y + (moveWrapEnemy env sf e).height/2)
    (moveWrapEnemy env sf e).color g k
  refine ⟨by simp only [enemyHarpoonHit, hC], ?_, ?_, ?_,
    by simp only [enemyHarpoonHit, hC], ?_, ?_, ?_⟩
  · intro hk
    simp only [enemyHarpoonHit, hC]
    split_ifs
    rfl
  · intro hs
    simp only [enemyHarpoonHit, hC]
    split_ifs
    rfl
  · simp only [enemyHarpoonHit, hC]
    split_ifs <;> rfl
  · simp only [enemyHarpoonHit, hC]
    split_ifs <;> rfl
  · intro hk
    simp only [updateEnemiesLoop]
    rw [if_neg hnp]
    simp only [hfind]
    rcases hE : enemyHarpoonHit env g (moveWrapEnemy env sf e) i k with ⟨g2, e2, k2⟩
    simp only [hE]
    have he2 : e2.health = (moveWrapEnemy env sf e).health - 1 := by
      have t := enemyHarpoonHit_health env g (moveWrapEnemy env sf e) i k
      rw [hE] at t
      exact t
    rw [if_pos (show e2.health ≤ 0 by rw [he2]; exact hk)]
  · intro hs
    simp only [updateEnemiesLoop]
    rw [if_neg hnp]
    simp only [hfind]
    rcases hE : enemyHarpoonHit env g (moveWrapEnemy env sf e) i k with ⟨g2, e2, k2⟩
    simp only [hE]
    have he2 : e2.health = (moveWrapEnemy env sf e).health - 1 := by
      have t := enemyHarpoonHit_health env g (moveWrapEnemy env sf e) i k
      rw [hE] at t
      exact t
    rw [if_neg (show ¬(e2.health ≤ 0) by rw [he2]; exact hs)]
    exact ⟨{ e2 with dx := e2.dx * (-(8/10)) }, rfl, he2⟩

set_option maxRecDepth 1500 in
/-- Witness for C3: the harpoon `c3harpoon` overlaps the one-health fish
`c3enemy` while the player is far away; the hit is a kill, so the score
gains `25 × (0+1)` and the fish leaves the collection. -/
theorem C3_harpoon_hit_witness :
    (¬(isColliding c3game.diver.rect true (moveWrapEnemy cenv 1 c3enemy).rect
        (moveWrapEnemy cenv 1 c3enemy).isShark ∧ ¬c3game.diver.isShieldActive) ∧
     c3game.harpoons.findIdx? (fun h => isColliding (harpoonRect h) false
        (moveWrapEnemy cenv 1 c3enemy).rect (moveWrapEnemy cenv 1 c3enemy).isShark) =
       some 0) ∧
    (enemyHarpoonHit cenv c3game (moveWrapEnemy cenv 1 c3enemy) 0 0).1.score =
      c3game.score + 25 * (c3game.diver.comboCounter + 1) ∧
    (updateEnemiesLoop cenv 1 [c3enemy] c3game 0 []).1.enemies = [] := by
  have hnp : ¬(isColliding c3game.diver.rect true (moveWrapEnemy cenv 1 c3enemy).rect
      (moveWrapEnemy cenv 1 c3enemy).isShark ∧ ¬c3game.diver.isShieldActive) := by
    with_unfolding_all decide
  have hfind : c3game.harpoons.findIdx? (fun h => isColliding (harpoonRect h) false
      (moveWrapEnemy cenv 1 c3enemy).rect (moveWrapEnemy cenv 1 c3enemy).isShark) =
      some 0 := by
    with_unfolding_all decide
  have hhealth : (moveWrapEnemy cenv 1 c3enemy).health = 1 := by
    with_unfolding_all decide
  have hkill : (moveWrapEnemy cenv 1 c3enemy).health - 1 ≤ 0 := by
    rw [hhealth]
    norm_num
  have h := C3_harpoon_hit cenv 1 c3game c3enemy 0 0 [] hnp hfind
  exact ⟨⟨hnp, hfind⟩, h.2.1 hkill, h.2.2.2.2.2.2.1 hkill⟩

/-- **C5 (amended).** A loop invocation whose computed `Δt` exceeds 100 ms
skips the tick — no subsystem runs and no world-state field changes —
except that `lastUpdateTime` is still set to the invocation's timestamp
(the source records it before the skip check); the loop still reschedules
itself. -/
theorem C5_skip_records_timestamp (env : Env) (ts : ℚ) (g : Game) (k : ℕ)
    (h : ts - g.lastUpdateTime > 100) :
    gameLoop env ts g k = (({ g with lastUpdateTime := ts }, k), true) := by
  simp only [gameLoop]
  rw [if_pos h]

set_option maxRecDepth 1500 in
/-- Counterexample for C5 as stated: on a skipped tick (`Δt = 200 > 100`)
the `lastUpdateTime` field of the world state does change. -/
theorem C5_skip_counterexample :
    (200 : ℚ) - (freshGame 0).lastUpdateTime > 100 ∧
    (gameLoop cenv 200 (freshGame 0) 0).1.1.lastUpdateTime ≠
      (freshGame 0).lastUpdateTime := by
  with_unfolding_all decide

/-- Witness for C5: the skip branch at timestamp 200 over a fresh world. -/
theorem C5_skip_records_timestamp_witness :
    ((200 : ℚ) - (freshGame 0).lastUpdateTime > 100) ∧
    gameLoop cenv 200 (freshGame 0) 0 =
      (({ freshGame 0 with lastUpdateTime := 200 }, 0), true) := by
  have h : (200 : ℚ) - (freshGame 0).lastUpdateTime > 100 := by
    show (200 : ℚ) - 0 > 100
    norm_num
  exact ⟨h, C5_skip_records_timestamp cenv 200 (freshGame 0) 0 h⟩

theorem levelSpawns_frame (env : Env) (g : Game) (k : ℕ) :
    ∃ es bs ps k',
      (let (g1, k1) := generateEnemies env g.level g k
       let (g2, k2) := generateOxygenBubbles env 1 g1 k1
       createLevelUpEffect env g2 k2) =
      ({ g with enemies := es, oxygenBubbles := bs, particles := ps }, k') := by
  obtain ⟨es, k1, hE⟩ := generateEnemies_frame env g.level g k
  simp only [hE]
  obtain ⟨bs, k2, hB⟩ := generateOxygenBubblesLoop_frame0 env (iterCount 1)
    { g with enemies := es } k1
  simp only [generateOxygenBubbles, hB]
  obtain ⟨ps, k3, hP⟩ := createLevelUpEffect_frame env
    { g with enemies := es, oxygenBubbles := bs } k2
  simp only [hP]
  exact ⟨es, bs, ps, k3, rfl⟩

/-- **C7.** The level increments exactly when `score ≥ 2000 × level` and
`level < 5`: on that condition the progression check raises the level by 1
and the oxygen-depletion rate by the fixed `0.02` increment; otherwise
(including at the level-5 cap, whatever the score) the check changes
nothing. -/
theorem C7_level_progression (env : Env) (g : Game) (k : ℕ) :
    ((g.score ≥ 2000 * g.level ∧ g.level < 5) →
      ((updateLevel env g k).1.level = g.level + 1 ∧
       (updateLevel env g k).1.diver.oxygenDepletionRate =
         g.diver.oxygenDepletionRate + 2/100)) ∧
    (¬(g.score ≥ 2000 * g.level ∧ g.level < 5) →
      updateLevel env g k = (g, k)) := by
  constructor
  · intro h
    simp only [updateLevel]
    rw [if_pos h]
    obtain ⟨es, bs, ps, k', hS⟩ := levelSpawns_frame env
      { g with level := g.level + 1,
               diver := { g.diver with oxygenDepletionRate :=
                 g.diver.oxygenDepletionRate + (2/100) } } k
    simp only at hS
    rw [hS]
    exact ⟨rfl, rfl⟩
  · intro h
    exact updateLevel_id env g k h

/-- Witness for C7: at score 2000 and level 1 the check yields level 2 and
depletion rate `0.05 + 0.02`. -/
theorem C7_level_progression_witness :
    (c7game.score ≥ 2000 * c7game.level ∧ c7game.level < 5) ∧
    (updateLevel cenv c7game 0).1.level = c7game.level + 1 ∧
    (updateLevel cenv c7game 0).1.diver.oxygenDepletionRate =
      c7game.diver.oxygenDepletionRate + 2/100 := by
  have hc : c7game.score ≥ 2000 * c7game.level ∧ c7game.level < 5 := by
    constructor
    · show (2000 : ℚ) ≥ 2000 * 1
      norm_num
    · show (1 : ℚ) < 5
      norm_num
  have h := (C7_level_progression cenv c7game 0).1 hc
  exact ⟨hc, h.1, h.2⟩

/-- **C10.** A heart the player overlaps while already at the maximum of
10 lives is still removed from the hearts collection, but lives, score,
combo counter, combo timer and particles are all unchanged (the result is
the input state with only the heart dropped); and the heart factory
creates nothing at all (state and draw counter untouched) when lives are
already at the maximum. -/
theorem C10_heart_at_max_lives (env : Env) (sf : ℚ) (g : Game) (h : Heart)
    (k : ℕ) (acc : List Heart)
    (hcol : isColliding g.diver.rect true (heartMove sf h).rect false = true)
    (hmax : ¬(g.playerLives < MAX_PLAYER_LIVES)) :
    updateHeartsLoop env sf [h] g k acc = ({ g with hearts := acc }, k) ∧
    ∀ pos, generateHeart env pos g k = (g, k) := by
  constructor
  · simp only [updateHeartsLoop]
    rw [if_pos hcol, if_neg hmax]
  · intro pos
    simp only [generateHeart]
    rw [if_pos (not_lt.mp hmax)]

set_option maxRecDepth 1500 in
/-- Witness for C10: the settled heart `c10heart` under the player of
`c10game` (10 lives): the pickup branch removes it with no other change,
and the factory declines to spawn. -/
theorem C10_heart_at_max_lives_witness :
    (isColliding c10game.diver.rect true (heartMove 1 c10heart).rect false = true ∧
     ¬(c10game.playerLives < MAX_PLAYER_LIVES)) ∧
    updateHeartsLoop cenv 1 [c10heart] c10game 0 [] =
      ({ c10game with hearts := [] }, 0) ∧
    generateHeart cenv (100, 100) c10game 0 = (c10game, 0) := by
  have hcol : isColliding c10game.diver.rect true (heartMove 1 c10heart).rect
      false = true := by
    with_unfolding_all decide
  have hmax : ¬(c10game.playerLives < MAX_PLAYER_LIVES) := by
    show ¬((10 : ℚ) < 10)
    norm_num
  have h := C10_heart_at_max_lives cenv 1 c10game c10heart 0 [] hcol hmax
  exact ⟨⟨hcol, hmax⟩, h.1, h.2 (100, 100)⟩

/-- **C6 (amended).** Every processed oxygen bonus ends in exactly one of
four ways: reaching the surface unclaimed (1.5× its value of oxygen,
capped, plus `250 × (combo+1)` score and a combo increment), collection by
the player (full value of oxygen, `150 × (combo+1)` score and a combo
increment), destruction by an overlapping hostile — which awards **no**
oxygen, score or combo change (only burst particles) — or silent expiry
when its lifespan or alpha has run out; otherwise it is retained. -/
theorem C6_bonus_outcomes (env : Env) (sf : ℚ) (g : Game) (b : OxygenBonus)
    (k : ℕ) (acc : List OxygenBonus) :
    ((bonusMove sf b).y ≤ 30 →
      ∃ ps k', updateOxygenBonusLoop env sf [b] g k acc =
        ({ g with
            oxygen := min MAX_OXYGEN (g.oxygen + (bonusMove sf b).value * (15/10)),
            score := g.score + 250 * (g.diver.comboCounter + 1),
            diver := { g.diver with
                         comboCounter := g.diver.comboCounter + 1,
                         comboTimer := COMBO_TIMEOUT_FRAMES },
            particles := ps, oxygenBonus := acc }, k')) ∧
    (¬((bonusMove sf b).y ≤ 30) →
      g.enemies.any (fun e => isColliding e.rect false (bonusMove sf b).rect false) =
        true →
      ∃ ps k', updateOxygenBonusLoop env sf [b] g k acc =
        ({ g with particles := ps, oxygenBonus := acc }, k')) ∧
    (¬((bonusMove sf b).y ≤ 30) →
      ¬(g.enemies.any (fun e => isColliding e.rect false (bonusMove sf b).rect false) =
          true) →
      isColliding g.diver.rect true (bonusMove sf b).rect false = true →
      ∃ ps k', updateOxygenBonusLoop env sf [b] g k acc =
        ({ g with
            oxygen := min MAX_OXYGEN (g.oxygen + (bonusMove sf b).value),
            score := g.score + 150 * (g.diver.comboCounter + 1),
            diver := { g.diver with
                         comboCounter := g.diver.comboCounter + 1,
                         comboTimer := COMBO_TIMEOUT_FRAMES },
            particles := ps, oxygenBonus := acc }, k')) ∧
    (¬((bonusMove sf b).y ≤ 30) →
      ¬(g.enemies.any (fun e => isColliding e.rect false (bonusMove sf b).rect false) =
          true) →
      ¬(isColliding g.diver.rect true (bonusMove sf b).rect false = true) →
      ((bonusMove sf b).lifespan > 0 ∧ (bonusMove sf b).alpha > 0 →
        updateOxygenBonusLoop env sf [b] g k acc =
          ({ g with oxygenBonus := acc ++ [bonusMove sf b] }, k)) ∧
      (¬((bonusMove sf b).lifespan > 0 ∧ (bonusMove sf b).alpha > 0) →
        updateOxygenBonusLoop env sf [b] g k acc =
          ({ g with oxygenBonus := acc }, k))) := by
  refine ⟨?_, ?_, ?_, ?_⟩
  · intro h1
    simp only [updateOxygenBonusLoop]
    rw [if_pos h1]
    obtain ⟨ps1, k1, hC1⟩ := createExplosion_frame env
      ((bonusMove sf b).x + (bonusMove sf b).width/2)
      ((bonusMove sf b).y + (bonusMove sf b).height/2) "#88ffff"
      ({ g with
          oxygen := min MAX_OXYGEN (g.oxygen + (bonusMove sf b).value * (15/10)),
          score := g.score + 250 * (g.diver.comboCounter + 1),
          diver := { g.diver with
                       comboCounter := g.diver.comboCounter + 1,
                       comboTimer := COMBO_TIMEOUT_FRAMES } }) k
    simp only [hC1]
    obtain ⟨ps2, k2, hC2⟩ := createExplosion_frame env
      ((bonusMove sf b).x + (bonusMove sf b).width/2)
      ((bonusMove sf b).y + (bonusMove sf b).height/2) "#ffffff"
      ({ g with
          oxygen := min MAX_OXYGEN (g.oxygen + (bonusMove sf b).value * (15/10)),
          score := g.score + 250 * (g.diver.comboCounter + 1),
          diver := { g.diver with
                       comboCounter := g.diver.comboCounter + 1,
                       comboTimer := COMBO_TIMEOUT_FRAMES },
          particles := ps1 }) k1
    simp only [hC2]
    obtain ⟨ps3, k3, hC3⟩ := createExplosion_frame env
      ((bonusMove sf b).x + (bonusMove sf b).width/2)
      ((bonusMove sf b).y + (bonusMove sf b).height/2) "#ffff88"
      ({ g with
          oxygen := min MAX_OXYGEN (g.oxygen + (bonusMove sf b).value * (15/10)),
          score := g.score + 250 * (g.diver.comboCounter + 1),
          diver := { g.diver with
                       comboCounter := g.diver.comboCounter + 1,
                       comboTimer := COMBO_TIMEOUT_FRAMES },
          particles := ps2 }) k2
    simp only [hC3, updateOxygenBonusLoop]
    exact ⟨ps3, k3, rfl⟩
  · intro h1 h2
    simp only [updateOxygenBonusLoop]
    rw [if_neg h1, if_pos h2]
    obtain ⟨ps1, k1, hC1⟩ := createExplosion_frame env
      ((bonusMove sf b).x + (bonusMove sf b).width/2)
      ((bonusMove sf b).y + (bonusMove sf b).height/2) "#ff5555" g k
    simp only [hC1]
    obtain ⟨ps2, k2, hC2⟩ := createExplosion_frame env
      ((bonusMove sf b).x + (bonusMove sf b).width/2)
      ((bonusMove sf b).y + (bonusMove sf b).height/2) "#ffaa55"
      ({ g with particles := ps1 }) k1
    simp only [hC2, updateOxygenBonusLoop]
    exact ⟨ps2, k2, rfl⟩
  · intro h1 h2 h3
    simp only [updateOxygenBonusLoop]
    rw [if_neg h1, if_neg h2, if_pos h3]
    obtain ⟨ps1, k1, hC1⟩ := createExplosion_frame env
      ((bonusMove sf b).x + (bonusMove sf b).width/2)
      ((bonusMove sf b).y + (bonusMove sf b).height/2) "#88ffff"
      ({ g with
          oxygen := min MAX_OXYGEN (g.oxygen + (bonusMove sf b).value),
          score := g.score + 150 * (g.diver.comboCounter + 1),
          diver := { g.diver with
                       comboCounter := g.diver.comboCounter + 1,
                       comboTimer := COMBO_TIMEOUT_FRAMES } }) k
    simp only [hC1]
    obtain ⟨ps2, k2, hC2⟩ := createExplosion_frame env
      ((bonusMove sf b).x + (bonusMove sf b).width/2)
      ((bonusMove sf b).y + (bonusMove sf b).height/2) "#ffff88"
      ({ g with
          oxygen := min MAX_OXYGEN (g.oxygen + (bonusMove sf b).value),
          score := g.score + 150 * (g.diver.comboCounter + 1),
          diver := { g.diver with
                       comboCounter := g.diver.comboCounter + 1,
                       comboTimer := COMBO_TIMEOUT_FRAMES },
          particles := ps1 }) k1
    simp only [hC2, updateOxygenBonusLoop]
    exact ⟨ps2, k2, rfl⟩
  · intro h1 h2 h3
    constructor
    · intro h4
      simp only [updateOxygenBonusLoop]
      rw [if_neg h1, if_neg h2, if_neg h3, if_pos h4]
    · intro h4
      simp only [updateOxygenBonusLoop]
      rw [if_neg h1, if_neg h2, if_neg h3, if_neg h4]

set_option maxRecDepth 1500 in
/-- Counterexample for C6 as stated: the hostile `c6enemy` overlaps the
moved bonus, which is destroyed — removed from the collection with score,
combo counter and oxygen all unchanged, so this outcome awards nothing. -/
theorem C6_bonus_outcomes_counterexample :
    ¬((bonusMove 1 c6bonus).y ≤ 30) ∧
    c6game.enemies.any
      (fun e => isColliding e.rect false (bonusMove 1 c6bonus).rect false) = true ∧
    (updateOxygenBonusLoop cenv 1 [c6bonus] c6game 0 []).1.score = c6game.score ∧
    (updateOxygenBonusLoop cenv 1 [c6bonus] c6game 0 []).1.diver.comboCounter =
      c6game.diver.comboCounter ∧
    (updateOxygenBonusLoop cenv 1 [c6bonus] c6game 0 []).1.oxygen = c6game.oxygen ∧
    (updateOxygenBonusLoop cenv 1 [c6bonus] c6game 0 []).1.oxygenBonus = [] := by
  with_unfolding_all decide

set_option maxRecDepth 1500 in
/-- Witness for C6: the hostile-destruction branch evaluated on the
concrete `c6game` scenario. -/
theorem C6_bonus_outcomes_witness :
    ∃ ps k', updateOxygenBonusLoop cenv 1 [c6bonus] c6game 0 [] =
      ({ c6game with particles := ps, oxygenBonus := [] }, k') := by
  have h1 : ¬((bonusMove 1 c6bonus).y ≤ 30) := by
    with_unfolding_all decide
  have h2 : c6game.enemies.any
      (fun e => isColliding e.rect false (bonusMove 1 c6bonus).rect false) = true := by
    with_unfolding_all decide
  exact (C6_bonus_outcomes cenv 1 c6game c6bonus 0 []).2.1 h1 h2

theorem comboGain_refl (c : ℚ) : ComboGain c c := ⟨0, by simp⟩

theorem comboGain_trans {a b c : ℚ} (h1 : ComboGain a b) (h2 : ComboGain b c) :
    ComboGain a c := by
  obtain ⟨m1, rfl⟩ := h1
  obtain ⟨m2, rfl⟩ := h2
  exact ⟨m1 + m2, by push_cast; ring⟩

theorem ComboGain.toEvo {a b : ℚ} (h : ComboGain a b) : ComboEvo a b :=
  ⟨h.choose, Or.inl h.choose_spec⟩

theorem comboEvo_refl (c : ℚ) : ComboEvo c c := ⟨0, Or.inl (by simp)⟩

theorem comboEvo_zero (a : ℚ) : ComboEvo a 0 := ⟨0, Or.inr (by simp)⟩

theorem comboEvo_trans {a b c : ℚ} (h1 : ComboEvo a b) (h2 : ComboEvo b c) :
    ComboEvo a c := by
  obtain ⟨m1, h1 | h1⟩ := h1 <;> obtain ⟨m2, h2 | h2⟩ := h2
  · exact ⟨m1 + m2, Or.inl (by rw [h2, h1]; push_cast; ring)⟩
  · exact ⟨m2, Or.inr h2⟩
  · exact ⟨m1 + m2, Or.inr (by rw [h2, h1]; push_cast; ring)⟩
  · exact ⟨m2, Or.inr h2⟩

theorem createExplosion_diver (env : Env) (x y : ℚ) (c : Color) (g : Game) (k : ℕ) :
    (createExplosion env x y c g k).1.diver = g.diver := by
  obtain ⟨ps, k', h⟩ := createExplosion_frame env x y c g k
  rw [h]

theorem generateHeart_diver (env : Env) (pos : ℚ × ℚ) (g : Game) (k : ℕ) :
    (generateHeart env pos g k).1.diver = g.diver := by
  unfold generateHeart
  split_ifs <;> rfl

theorem generateTreasures_diver (env : Env) (count : ℚ) (pos : Option (ℚ × ℚ))
    (g : Game) (k : ℕ) :
    (generateTreasures env count pos g k).1.diver = g.diver := by
  obtain ⟨ts, k', h⟩ := generateTreasures_frame env count pos g k
  rw [h]

theorem generateEnemies_diver (env : Env) (count : ℚ) (g : Game) (k : ℕ) :
    (generateEnemies env count g k).1.diver = g.diver := by
  obtain ⟨es, k', h⟩ := generateEnemies_frame env count g k
  rw [h]

theorem generateOxygenBubbles_diver (env : Env) (count : ℚ) (g : Game) (k : ℕ) :
    (generateOxygenBubbles env count g k).1.diver = g.diver := by
  obtain ⟨bs, k', h⟩ := generateOxygenBubblesLoop_frame0 env (iterCount count) g k
  simp only [generateOxygenBubbles, h]

theorem createLevelUpEffect_diver (env : Env) (g : Game) (k : ℕ) :
    (createLevelUpEffect env g k).1.diver = g.diver := by
  obtain ⟨ps, k', h⟩ := createLevelUpEffect_frame env g k
  rw [h]

theorem enemyDropHeart_diver (env : Env) (e : Enemy) (g : Game) (k : ℕ) :
    (enemyDropHeart env e g k).1.diver = g.diver := by
  unfold enemyDropHeart
  split_ifs
  · exact generateHeart_diver env _ g (k + 1)
  · rfl
  · rfl

theorem enemyDropTreasure_diver (env : Env) (e : Enemy) (g : Game) (k : ℕ) :
    (enemyDropTreasure env e g k).1.diver = g.diver := by
  unfold enemyDropTreasure
  split_ifs
  · exact generateTreasures_diver env 1 _ g (k + 1)
  · rfl
  · rfl

theorem enemyPlayerHit_combo0 (env : Env) (g : Game) (e : Enemy) (k : ℕ) :
    (enemyPlayerHit env g e k).1.diver.comboCounter = 0 ∧
    (enemyPlayerHit env g e k).1.diver.comboTimer = 0 := by
  obtain ⟨ps, k1, hC⟩ := createExplosion_frame env
    ({ g with oxygen := max 0 (g.oxygen - 30) }.diver.x +
      { g with oxygen := max 0 (g.oxygen - 30) }.diver.width / 2)
    ({ g with oxygen := max 0 (g.oxygen - 30) }.diver.y +
      { g with oxygen := max 0 (g.oxygen - 30) }.diver.height / 2)
    "#ff0000" ({ g with oxygen := max 0 (g.oxygen - 30) }) k
  simp only [enemyPlayerHit, hC]
  exact ⟨trivial, trivial⟩

theorem enemyHarpoonHit_comboCounter (env : Env) (g : Game) (e : Enemy) (i k : ℕ) :
    (enemyHarpoonHit env g e i k).1.diver.comboCounter = g.diver.comboCounter + 1 ∧
    (enemyHarpoonHit env g e i k).1.diver.comboTimer = COMBO_TIMEOUT_FRAMES := by
  obtain ⟨ps, k1, hC⟩ := createExplosion_frame env (e.x + e.width/2)
    (e.y + e.height/2) e.color g k
  simp only [enemyHarpoonHit, hC]
  refine ⟨?_, trivial⟩
  split_ifs <;> rfl

theorem diverComboTick_comboCounter (sf : ℚ) (d : Diver) :
    (diverComboTick sf d).comboCounter =
      if d.comboTimer > 0 ∧ d.comboTimer - sf ≤ 0 then 0 else d.comboCounter := by
  simp only [diverComboTick]
  by_cases h1 : d.comboTimer > 0
  · by_cases h2 : d.comboTimer - sf ≤ 0
    · rw [if_pos h1, if_pos h2, if_pos ⟨h1, h2⟩]
    · rw [if_pos h1, if_neg h2, if_neg (fun hc => h2 hc.2)]
  · rw [if_neg h1, if_neg (fun hc => h1 hc.1)]

theorem diverShieldTick_comboCounter (sf : ℚ) (d : Diver) :
    (diverShieldTick sf d).comboCounter = d.comboCounter := by
  simp only [diverShieldTick]
  split_ifs <;> rfl

theorem diverHorizontalInput_comboCounter (env : Env) (sf : ℚ) (ks : Keys) (d : Diver) :
    (diverHorizontalInput env sf ks d).comboCounter = d.comboCounter := by
  simp only [diverHorizontalInput]
  split_ifs <;> rfl

theorem diverHorizontalInput_comboTimer (env : Env) (sf : ℚ) (ks : Keys) (d : Diver) :
    (diverHorizontalInput env sf ks d).comboTimer = d.comboTimer := by
  simp only [diverHorizontalInput]
  split_ifs <;> rfl

theorem diverVerticalInput_comboCounter (env : Env) (sf : ℚ) (ks : Keys) (d : Diver) :
    (diverVerticalInput env sf ks d).comboCounter = d.comboCounter := by
  simp only [diverVerticalInput]
  split_ifs <;> rfl

theorem diverVerticalInput_comboTimer (env : Env) (sf : ℚ) (ks : Keys) (d : Diver) :
    (diverVerticalInput env sf ks d).comboTimer = d.comboTimer := by
  simp only [diverVerticalInput]
  split_ifs <;> rfl

theorem updateDiver_combo (env : Env) (dt : ℚ) (g : Game) :
    (updateDiver env dt g).diver.comboCounter =
      if g.diver.comboTimer > 0 ∧ g.diver.comboTimer - scaleOf dt ≤ 0 then 0
      else g.diver.comboCounter := by
  simp only [updateDiver]
  rw [diverShieldTick_comboCounter, diverComboTick_comboCounter]
  rw [show (diverClamp (diverIntegrate (scaleOf dt)
      (diverVerticalInput env (scaleOf dt) g.keys
        (diverHorizontalInput env (scaleOf dt) g.keys
          (diverBuoyancy (scaleOf dt) g.diver))))).comboTimer =
      g.diver.comboTimer from by
    show (diverVerticalInput env (scaleOf dt) g.keys
      (diverHorizontalInput env (scaleOf dt) g.keys
        (diverBuoyancy (scaleOf dt) g.diver))).comboTimer = g.diver.comboTimer
    rw [diverVerticalInput_comboTimer, diverHorizontalInput_comboTimer]
    rfl]
  rw [show (diverClamp (diverIntegrate (scaleOf dt)
      (diverVerticalInput env (scaleOf dt) g.keys
        (diverHorizontalInput env (scaleOf dt) g.keys
          (diverBuoyancy (scaleOf dt) g.diver))))).comboCounter =
      g.diver.comboCounter from by
    show (diverVerticalInput env (scaleOf dt) g.keys
      (diverHorizontalInput env (scaleOf dt) g.keys
        (diverBuoyancy (scaleOf dt) g.diver))).comboCounter = g.diver.comboCounter
    rw [diverVerticalInput_comboCounter, diverHorizontalInput_comboCounter]
    rfl]

theorem updateWeaponSystem_combo (env : Env) (dt : ℚ) (g : Game) :
    (updateWeaponSystem env dt g).diver.comboCounter = g.diver.comboCounter := by
  simp only [updateWeaponSystem, fireHarpoon]
  split_ifs <;> rfl

theorem updateTreasuresLoop_combo (env : Env) (sf : ℚ) :
    ∀ (ts : List Treasure) (g : Game) (k : ℕ) (acc : List Treasure),
      ComboGain g.diver.comboCounter
        (updateTreasuresLoop env sf ts g k acc).1.diver.comboCounter := by
  intro ts
  induction ts with
  | nil => intro g k acc; exact comboGain_refl _
  | cons t rest ih =>
    intro g k acc
    simp only [updateTreasuresLoop]
    split
    · refine comboGain_trans ?_ (ih _ _ _)
      rw [createExplosion_diver]
      exact ⟨1, by simp⟩
    · exact ih _ _ _

theorem updateHeartsLoop_combo (env : Env) (sf : ℚ) :
    ∀ (hs : List Heart) (g : Game) (k : ℕ) (acc : List Heart),
      ComboGain g.diver.comboCounter
        (updateHeartsLoop env sf hs g k acc).1.diver.comboCounter := by
  intro hs
  induction hs with
  | nil => intro g k acc; exact comboGain_refl _
  | cons h rest ih =>
    intro g k acc
    simp only [updateHeartsLoop]
    split
    · split
      · refine comboGain_trans ?_ (ih _ _ _)
        rw [createExplosion_diver, createExplosion_diver]
        exact ⟨1, by simp⟩
      · exact ih _ _ _
    · exact ih _ _ _

theorem updateOxygenBubblesLoop_diver (env : Env) (sf : ℚ) :
    ∀ (bs : List OxygenBubble) (g : Game) (k : ℕ) (acc : List OxygenBubble),
      (updateOxygenBubblesLoop env sf bs g k acc).1.diver = g.diver := by
  intro bs
  induction bs with
  | nil => intro g k acc; rfl
  | cons b rest ih =>
    intro g k acc
    simp only [updateOxygenBubblesLoop]
    split
    · rw [ih _ _ _, createExplosion_diver]
    · split
      · exact ih _ _ _
      · exact ih _ _ _

theorem updateOxygenBonusLoop_combo (env : Env) (sf : ℚ) :
    ∀ (bs : List OxygenBonus) (g : Game) (k : ℕ) (acc : List OxygenBonus),
      ComboGain g.diver.comboCounter
        (updateOxygenBonusLoop env sf bs g k acc).1.diver.comboCounter := by
  intro bs
  induction bs with
  | nil => intro g k acc; exact comboGain_refl _
  | cons b rest ih =>
    intro g k acc
    simp only [updateOxygenBonusLoop]
    split
    · refine comboGain_trans ?_ (ih _ _ _)
      rw [createExplosion_diver, createExplosion_diver, createExplosion_diver]
      exact ⟨1, by simp⟩
    · split
      · refine comboGain_trans ?_ (ih _ _ _)
        rw [createExplosion_diver, createExplosion_diver]
        exact comboGain_refl _
      · split
        · refine comboGain_trans ?_ (ih _ _ _)
          rw [createExplosion_diver, createExplosion_diver]
          exact ⟨1, by simp⟩
        · split
          · exact ih _ _ _
          · exact ih _ _ _

theorem crabEatTreasures_diver (env : Env) (c : Crab) :
    ∀ (ts : List Treasure) (g : Game) (k : ℕ) (acc : List Treasure),
      (crabEatTreasures env c ts g k acc).1.diver = g.diver := by
  intro ts
  induction ts with
  | nil => intro g k acc; rfl
  | cons t rest ih =>
    intro g k acc
    simp only [crabEatTreasures]
    split
    · rw [ih _ _ _, createExplosion_diver]
    · exact ih _ _ _

theorem crabEatHearts_diver (env : Env) (c : Crab) :
    ∀ (hs : List Heart) (g : Game) (k : ℕ) (acc : List Heart),
      (crabEatHearts env c hs g k acc).1.diver = g.diver := by
  intro hs
  induction hs with
  | nil => intro g k acc; rfl
  | cons h rest ih =>
    intro g k acc
    simp only [crabEatHearts]
    split
    · rw [ih _ _ _, createExplosion_diver]
    · exact ih _ _ _

theorem updateCrabsLoop_diver (env : Env) (sf : ℚ) :
    ∀ (cs : List Crab) (g : Game) (k : ℕ) (acc : List Crab),
      (updateCrabsLoop env sf cs g k acc).1.diver = g.diver := by
  intro cs
  induction cs with
  | nil => intro g k acc; rfl
  | cons c rest ih =>
    intro g k acc
    simp only [updateCrabsLoop]
    split
    · rw [ih _ _ _, crabEatHearts_diver, crabEatTreasures_diver]
    · rw [ih _ _ _, createExplosion_diver, crabEatHearts_diver, crabEatTreasures_diver]

theorem updateEnemiesLoop_combo (env : Env) (sf : ℚ) :
    ∀ (es : List Enemy) (g : Game) (k : ℕ) (acc : List Enemy),
      ComboEvo g.diver.comboCounter
        (updateEnemiesLoop env sf es g k acc).1.diver.comboCounter := by
  intro es
  induction es with
  | nil => intro g k acc; exact comboEvo_refl _
  | cons e rest ih =>
    intro g k acc
    simp only [updateEnemiesLoop]
    by_cases hp : isColliding g.diver.rect true (moveWrapEnemy env sf e).rect
        (moveWrapEnemy env sf e).isShark ∧ ¬g.diver.isShieldActive
    · rw [if_pos hp]
      have hstep : ComboEvo g.diver.comboCounter
          (enemyPlayerHit env g (moveWrapEnemy env sf e) k).1.diver.comboCounter := by
        rw [(enemyPlayerHit_combo0 env g (moveWrapEnemy env sf e) k).1]
        exact comboEvo_zero _
      cases hf : (enemyPlayerHit env g (moveWrapEnemy env sf e) k).1.harpoons.findIdx?
          (fun h => isColliding (harpoonRect h) false
            (enemyPlayerHit env g (moveWrapEnemy env sf e) k).2.1.rect
            (enemyPlayerHit env g (moveWrapEnemy env sf e) k).2.1.isShark) with
      | none =>
        simp only [hf]
        exact comboEvo_trans hstep (ih _ _ _)
      | some i =>
        simp only [hf]
        rcases hE : enemyHarpoonHit env (enemyPlayerHit env g (moveWrapEnemy env sf e) k).1
            (enemyPlayerHit env g (moveWrapEnemy env sf e) k).2.1 i
            (enemyPlayerHit env g (moveWrapEnemy env sf e) k).2.2 with ⟨g2, e2, k2⟩
        simp only [hE]
        have hg2 : g2.diver.comboCounter =
            (enemyPlayerHit env g (moveWrapEnemy env sf e) k).1.diver.comboCounter + 1 := by
          have hx := (enemyHarpoonHit_comboCounter env
            (enemyPlayerHit env g (moveWrapEnemy env sf e) k).1
            (enemyPlayerHit env g (moveWrapEnemy env sf e) k).2.1 i
            (enemyPlayerHit env g (moveWrapEnemy env sf e) k).2.2).1
          rw [hE] at hx
          exact hx
        have hg2evo : ComboEvo g.diver.comboCounter g2.diver.comboCounter := by
          rw [hg2, (enemyPlayerHit_combo0 env g (moveWrapEnemy env sf e) k).1]
          exact ⟨1, Or.inr (by norm_num)⟩
        split
        · refine comboEvo_trans ?_ (ih _ _ _)
          rw [enemyDropTreasure_diver, enemyDropHeart_diver]
          exact hg2evo
        · exact comboEvo_trans hg2evo (ih _ _ _)
    · rw [if_neg hp]
      cases hf : (g, moveWrapEnemy env sf e, k).1.harpoons.findIdx?
          (fun h => isColliding (harpoonRect h) false
            (g, moveWrapEnemy env sf e, k).2.1.rect
            (g, moveWrapEnemy env sf e, k).2.1.isShark) with
      | none =>
        simp only [hf]
        exact ih _ _ _
      | some i =>
        simp only [hf]
        rcases hE : enemyHarpoonHit env (g, moveWrapEnemy env sf e, k).1
            (g, moveWrapEnemy env sf e, k).2.1 i
            (g, moveWrapEnemy env sf e, k).2.2 with ⟨g2, e2, k2⟩
        simp only [hE]
        have hg2 : g2.diver.comboCounter = g.diver.comboCounter + 1 := by
          have hx := (enemyHarpoonHit_comboCounter env (g, moveWrapEnemy env sf e, k).1
            (g, moveWrapEnemy env sf e, k).2.1 i (g, moveWrapEnemy env sf e, k).2.2).1
          rw [hE] at hx
          exact hx
        have hg2evo : ComboEvo g.diver.comboCounter g2.diver.comboCounter := by
          rw [hg2]
          exact ⟨1, Or.inl (by norm_num)⟩
        split
        · refine comboEvo_trans ?_ (ih _ _ _)
          rw [enemyDropTreasure_diver, enemyDropHeart_diver]
          exact hg2evo
        · exact comboEvo_trans hg2evo (ih _ _ _)

theorem maybeSpawnEnemy_diver (env : Env) (sf : ℚ) (g : Game) (k : ℕ) :
    (maybeSpawnEnemy env sf g k).1.diver = g.diver := by
  unfold maybeSpawnEnemy
  split_ifs
  · exact generateEnemies_diver env 1 g (k + 1)
  · rfl
  · rfl

theorem maybeSpawnCrab_diver (env : Env) (sf : ℚ) (g : Game) (k : ℕ) :
    (maybeSpawnCrab env sf g k).1.diver = g.diver := by
  unfold maybeSpawnCrab
  split_ifs
  · obtain ⟨cs, k', h⟩ := generateCrab_frame env g (k + 1)
    rw [h]
  · rfl
  · rfl

theorem maybeSpawnSmallBubbles_diver (env : Env) (sf : ℚ) (g : Game) (k : ℕ) :
    (maybeSpawnSmallBubbles env sf g k).1.diver = g.diver := by
  unfold maybeSpawnSmallBubbles
  split_ifs
  · exact generateOxygenBubbles_diver env 1 g (k + 1)
  · rfl

theorem maybeSpawnLargeBubble_diver (env : Env) (sf : ℚ) (g : Game) (k : ℕ) :
    (maybeSpawnLargeBubble env sf g k).1.diver = g.diver := by
  unfold maybeSpawnLargeBubble
  split_ifs
  · rfl
  · rfl

theorem maybeSpawnBonus_diver (env : Env) (sf : ℚ) (g : Game) (k : ℕ) :
    (maybeSpawnBonus env sf g k).1.diver = g.diver := by
  unfold maybeSpawnBonus
  split_ifs
  · obtain ⟨bs, k', h, -⟩ := generateOxygenBonus_frame env g (k + 1)
    rw [h]
  · rfl
  · rfl

theorem checkOxygenDepleted_combo (env : Env) (g : Game) (k : ℕ) :
    (checkOxygenDepleted env g k).1.diver.comboCounter =
      if (g.oxygen ≤ 0 ∧ g.gameStarted ∧ ¬g.gameOver) ∧ 0 < g.playerLives - 1 then 0
      else g.diver.comboCounter := by
  simp only [checkOxygenDepleted]
  by_cases hd : g.oxygen ≤ 0 ∧ g.gameStarted ∧ ¬g.gameOver
  · rw [if_pos hd]
    obtain ⟨ps, k1, hC⟩ := createExplosion_frame env
      ({ g with playerLives := g.playerLives - 1 }.diver.x +
        { g with playerLives := g.playerLives - 1 }.diver.width / 2)
      ({ g with playerLives := g.playerLives - 1 }.diver.y +
        { g with playerLives := g.playerLives - 1 }.diver.height / 2)
      "#ff0000" ({ g with playerLives := g.playerLives - 1 }) k
    simp only [handleOxygenDepleted, hC]
    by_cases hl : 0 < g.playerLives - 1
    · rw [if_pos hl, if_pos ⟨hd, hl⟩]
    · rw [if_neg hl, if_neg (fun hc => hl hc.2)]
      rfl
  · rw [if_neg hd, if_neg (fun hc => hd hc.1)]

theorem updateTreasures_combo (env : Env) (dt : ℚ) (g : Game) (k : ℕ) :
    ComboGain g.diver.comboCounter
      (updateTreasures env dt g k).1.diver.comboCounter :=
  updateTreasuresLoop_combo env _ g.treasures g k []

theorem updateHearts_combo (env : Env) (dt : ℚ) (g : Game) (k : ℕ) :
    ComboGain g.diver.comboCounter
      (updateHearts env dt g k).1.diver.comboCounter :=
  updateHeartsLoop_combo env _ g.hearts g k []

theorem updateEnemies_combo (env : Env) (dt : ℚ) (g : Game) (k : ℕ) :
    ComboEvo g.diver.comboCounter
      (updateEnemies env dt g k).1.diver.comboCounter := by
  simp only [updateEnemies]
  rw [maybeSpawnEnemy_diver]
  exact updateEnemiesLoop_combo env _ g.enemies g k []

theorem updateCrabs_combo (env : Env) (dt : ℚ) (g : Game) (k : ℕ) :
    (updateCrabs env dt g k).1.diver.comboCounter = g.diver.comboCounter := by
  simp only [updateCrabs]
  rw [updateCrabsLoop_diver, maybeSpawnCrab_diver]

theorem updateOxygenBubbles_combo (env : Env) (dt : ℚ) (g : Game) (k : ℕ) :
    (updateOxygenBubbles env dt g k).1.diver.comboCounter = g.diver.comboCounter ∨
    (updateOxygenBubbles env dt g k).1.diver.comboCounter = 0 := by
  simp only [updateOxygenBubbles]
  rw [checkOxygenDepleted_combo]
  split_ifs
  all_goals first
    | exact Or.inr rfl
    | (refine Or.inl ?_
       rw [maybeSpawnLargeBubble_diver, maybeSpawnSmallBubbles_diver,
         updateOxygenBubblesLoop_diver])

theorem updateOxygenBonus_combo (env : Env) (dt : ℚ) (g : Game) (k : ℕ) :
    ComboGain g.diver.comboCounter
      (updateOxygenBonus env dt g k).1.diver.comboCounter := by
  simp only [updateOxygenBonus]
  refine comboGain_trans ?_ (updateOxygenBonusLoop_combo env _ _ _ _ _)
  rw [maybeSpawnBonus_diver]
  exact comboGain_refl _

theorem updateParticles_combo (dt : ℚ) (g : Game) :
    (updateParticles dt g).diver.comboCounter = g.diver.comboCounter := rfl

theorem updateLevel_combo (env : Env) (g : Game) (k : ℕ) :
    (updateLevel env g k).1.diver.comboCounter = g.diver.comboCounter := by
  by_cases hc : g.score ≥ 2000 * g.level ∧ g.level < 5
  · simp only [updateLevel]
    rw [if_pos hc]
    rw [createLevelUpEffect_diver, generateOxygenBubbles_diver, generateEnemies_diver]
  · rw [updateLevel_id env g k hc]

theorem tickUpdate_combo (env : Env) (dt : ℚ) (g : Game) (k : ℕ) :
    ComboEvo g.diver.comboCounter (tickUpdate env dt g k).1.diver.comboCounter := by
  simp only [tickUpdate]
  rcases h3 : updateTreasures env dt (updateWeaponSystem env dt (updateDiver env dt g)) k
    with ⟨g3, k3⟩
  simp only [h3]
  rcases h4 : updateHearts env dt g3 k3 with ⟨g4, k4⟩
  simp only [h4]
  rcases h5 : updateEnemies env dt g4 k4 with ⟨g5, k5⟩
  simp only [h5]
  rcases h6 : updateCrabs env dt g5 k5 with ⟨g6, k6⟩
  simp only [h6]
  rcases h7 : updateOxygenBubbles env dt g6 k6 with ⟨g7, k7⟩
  simp only [h7]
  rcases h8 : updateOxygenBonus env dt g7 k7 with ⟨g8, k8⟩
  simp only [h8]
  rw [updateLevel_combo, updateParticles_combo]
  have e1 : ComboEvo g.diver.comboCounter (updateDiver env dt g).diver.comboCounter := by
    rw [updateDiver_combo]
    split_ifs
    · exact comboEvo_zero _
    · exact comboEvo_refl _
  have e2 : ComboEvo g.diver.comboCounter
      (updateWeaponSystem env dt (updateDiver env dt g)).diver.comboCounter := by
    rw [updateWeaponSystem_combo]
    exact e1
  have e3 : ComboEvo g.diver.comboCounter g3.diver.comboCounter := by
    have t := updateTreasures_combo env dt (updateWeaponSystem env dt (updateDiver env dt g)) k
    rw [h3] at t
    exact comboEvo_trans e2 (ComboGain.toEvo t)
  have e4 : ComboEvo g.diver.comboCounter g4.diver.comboCounter := by
    have t := updateHearts_combo env dt g3 k3
    rw [h4] at t
    exact comboEvo_trans e3 (ComboGain.toEvo t)
  have e5 : ComboEvo g.diver.comboCounter g5.diver.comboCounter := by
    have t := updateEnemies_combo env dt g4 k4
    rw [h5] at t
    exact comboEvo_trans e4 t
  have e6 : ComboEvo g.diver.comboCounter g6.diver.comboCounter := by
    have t := updateCrabs_combo env dt g5 k5
    rw [h6] at t
    rw [show g6.diver.comboCounter = g5.diver.comboCounter from t]
    exact e5
  have e7 : ComboEvo g.diver.comboCounter g7.diver.comboCounter := by
    have t := updateOxygenBubbles_combo env dt g6 k6
    rw [h7] at t
    rcases t with t | t
    · rw [show g7.diver.comboCounter = g6.diver.comboCounter from t]
      exact e6
    · rw [show g7.diver.comboCounter = 0 from t]
      exact comboEvo_zero _
  have t8 := updateOxygenBonus_combo env dt g7 k7
  rw [h8] at t8
  exact comboEvo_trans e7 (ComboGain.toEvo t8)

theorem createExplosion_score (env : Env) (x y : ℚ) (c : Color) (g : Game) (k : ℕ) :
    (createExplosion env x y c g k).1.score = g.score := by
  obtain ⟨ps, k', h⟩ := createExplosion_frame env x y c g k
  rw [h]

theorem updateTreasuresLoop_pickup (env : Env) (sf : ℚ) (g : Game) (t : Treasure)
    (k : ℕ) (acc : List Treasure)
    (hcol : isColliding g.diver.rect true (treasureMove sf t).rect false = true) :
    (updateTreasuresLoop env sf [t] g k acc).1.diver.comboCounter =
      g.diver.comboCounter + 1 ∧
    (updateTreasuresLoop env sf [t] g k acc).1.diver.comboTimer =
      COMBO_TIMEOUT_FRAMES ∧
    (updateTreasuresLoop env sf [t] g k acc).1.score =
      g.score + (treasureMove sf t).value * (g.diver.comboCounter + 1) := by
  simp only [updateTreasuresLoop]
  rw [if_pos hcol]
  refine ⟨?_, ?_, ?_⟩
  · rw [createExplosion_diver]
  · rw [createExplosion_diver]
  · rw [createExplosion_score]

theorem updateHeartsLoop_pickup (env : Env) (sf : ℚ) (g : Game) (h : Heart)
    (k : ℕ) (acc : List Heart)
    (hcol : isColliding g.diver.rect true (heartMove sf h).rect false = true)
    (hlives : g.playerLives < MAX_PLAYER_LIVES) :
    (updateHeartsLoop env sf [h] g k acc).1.diver.comboCounter =
      g.diver.comboCounter + 1 ∧
    (updateHeartsLoop env sf [h] g k acc).1.diver.comboTimer =
      COMBO_TIMEOUT_FRAMES ∧
    (updateHeartsLoop env sf [h] g k acc).1.score =
      g.score + 50 * (g.diver.comboCounter + 1) := by
  simp only [updateHeartsLoop]
  rw [if_pos hcol, if_pos hlives]
  refine ⟨?_, ?_, ?_⟩
  · rw [createExplosion_diver, createExplosion_diver]
  · rw [createExplosion_diver, createExplosion_diver]
  · rw [createExplosion_score, createExplosion_score]

set_option maxRecDepth 1500 in
/-- **C9 (amended).** Across every tick of a playing session the combo
counter only increases on a scoring event and is reset to 0 in exactly
three situations.  Conjuncts: (1) the diver update resets the counter
exactly when a running combo timer crosses 0 and otherwise preserves it;
(2) hostile-collision damage zeroes counter and timer; (3) the
oxygen-depletion check zeroes the counter exactly when it respawns a
player who is out of oxygen, and otherwise preserves it; (4–6) the
scoring events — harpoon hit, treasure pickup, heart pickup below the
life cap — each increment the counter by exactly 1, refill its timer to
the full 180 frames, and credit score; (7–15) every other transition of
every subsystem either preserves the counter exactly (weapons, crabs,
particles, level check), only adds scoring increments (treasures,
hearts, bonus loops), or additionally may zero it only through the
listed reset sites (enemies via (2), the oxygen check via (3)); (16)
consequently a whole tick changes the counter only by adding finitely
many increments, or by a reset to 0 followed by increments; (17) the
concrete `c9game` tick (no hostiles anywhere, combo timer at 180, oxygen
exhausted) resets a combo of 5 to 0 through the respawn site (3). -/
theorem C9_combo_transitions (env : Env) (dt sf : ℚ) (g : Game)
    (e : Enemy) (i k : ℕ) :
    ((updateDiver env dt g).diver.comboCounter =
      if g.diver.comboTimer > 0 ∧ g.diver.comboTimer - scaleOf dt ≤ 0 then 0
      else g.diver.comboCounter) ∧
    ((enemyPlayerHit env g e k).1.diver.comboCounter = 0 ∧
     (enemyPlayerHit env g e k).1.diver.comboTimer = 0) ∧
    ((checkOxygenDepleted env g k).1.diver.comboCounter =
      if (g.oxygen ≤ 0 ∧ g.gameStarted ∧ ¬g.gameOver) ∧ 0 < g.playerLives - 1 then 0
      else g.diver.comboCounter) ∧
    ((enemyHarpoonHit env g e i k).1.diver.comboCounter =
      g.diver.comboCounter + 1 ∧
     (enemyHarpoonHit env g e i k).1.diver.comboTimer = COMBO_TIMEOUT_FRAMES) ∧
    (∀ (t : Treasure) (acc : List Treasure),
      isColliding g.diver.rect true (treasureMove sf t).rect false = true →
      (updateTreasuresLoop env sf [t] g k acc).1.diver.comboCounter =
        g.diver.comboCounter + 1 ∧
      (updateTreasuresLoop env sf [t] g k acc).1.diver.comboTimer =
        COMBO_TIMEOUT_FRAMES ∧
      (updateTreasuresLoop env sf [t] g k acc).1.score =
        g.score + (treasureMove sf t).value * (g.diver.comboCounter + 1)) ∧
    (∀ (h : Heart) (acc : List Heart),
      isColliding g.diver.rect true (heartMove sf h).rect false = true →
      g.playerLives < MAX_PLAYER_LIVES →
      (updateHeartsLoop env sf [h] g k acc).1.diver.comboCounter =
        g.diver.comboCounter + 1 ∧
      (updateHeartsLoop env sf [h] g k acc).1.diver.comboTimer =
        COMBO_TIMEOUT_FRAMES ∧
      (updateHeartsLoop env sf [h] g k acc).1.score =
        g.score + 50 * (g.diver.comboCounter + 1)) ∧
    ((updateWeaponSystem env dt g).diver.comboCounter = g.diver.comboCounter) ∧
    (∀ (ts : List Treasure) (acc : List Treasure), ComboGain g.diver.comboCounter
      (updateTreasuresLoop env sf ts g k acc).1.diver.comboCounter) ∧
    (∀ (hs : List Heart) (acc : List Heart), ComboGain g.diver.comboCounter
      (updateHeartsLoop env sf hs g k acc).1.diver.comboCounter) ∧
    (∀ (es : List Enemy) (acc : List Enemy), ComboEvo g.diver.comboCounter
      (updateEnemiesLoop env sf es g k acc).1.diver.comboCounter) ∧
    ((updateCrabs env dt g k).1.diver.comboCounter = g.diver.comboCounter) ∧
    ((updateOxygenBubbles env dt g k).1.diver.comboCounter = g.diver.comboCounter ∨
     (updateOxygenBubbles env dt g k).1.diver.comboCounter = 0) ∧
    (ComboGain g.diver.comboCounter
      (updateOxygenBonus env dt g k).1.diver.comboCounter) ∧
    ((updateParticles dt g).diver.comboCounter = g.diver.comboCounter) ∧
    ((updateLevel env g k).1.diver.comboCounter = g.diver.comboCounter) ∧
    (ComboEvo g.diver.comboCounter (tickUpdate env dt g k).1.diver.comboCounter) ∧
    (c9game.diver.comboCounter = 5 ∧ c9game.diver.comboTimer = 180 ∧
     c9game.enemies = [] ∧
     (tickUpdate cenv (50/3) c9game 0).1.diver.comboCounter = 0 ∧
     (tickUpdate cenv (50/3) c9game 0).1.playerLives = c9game.playerLives - 1) := by
  refine ⟨updateDiver_combo env dt g,
    enemyPlayerHit_combo0 env g e k,
    checkOxygenDepleted_combo env g k,
    enemyHarpoonHit_comboCounter env g e i k,
    fun t acc hcol => updateTreasuresLoop_pickup env sf g t k acc hcol,
    fun h acc hcol hlives => updateHeartsLoop_pickup env sf g h k acc hcol hlives,
    updateWeaponSystem_combo env dt g,
    fun ts acc => updateTreasuresLoop_combo env sf ts g k acc,
    fun hs acc => updateHeartsLoop_combo env sf hs g k acc,
    fun es acc => updateEnemiesLoop_combo env sf es g k acc,
    updateCrabs_combo env dt g k,
    updateOxygenBubbles_combo env dt g k,
    updateOxygenBonus_combo env dt g k,
    updateParticles_combo dt g,
    updateLevel_combo env g k,
    tickUpdate_combo env dt g k,
    rfl, rfl, rfl, by with_unfolding_all decide, by with_unfolding_all decide⟩

set_option maxRecDepth 1500 in
/-- Witness for C9: the oxygen-death reset site evaluated at the concrete
session `c9game` (oxygen exhausted, two lives, running combo): the check
fires and zeroes the counter. -/
theorem C9_combo_transitions_witness :
    ((c9game.oxygen ≤ 0 ∧ c9game.gameStarted ∧ ¬c9game.gameOver) ∧
      0 < c9game.playerLives - 1) ∧
    (checkOxygenDepleted cenv c9game 0).1.diver.comboCounter = 0 := by
  have hcond : (c9game.oxygen ≤ 0 ∧ c9game.gameStarted ∧ ¬c9game.gameOver) ∧
      0 < c9game.playerLives - 1 := by
    with_unfolding_all decide
  refine ⟨hcond, ?_⟩
  rw [(C9_combo_transitions cenv (50/3) 1 c9game c3enemy 0 0).2.2.1, if_pos hcond]

set_option maxRecDepth 1500 in
/-- Counterexample for C9 as stated: in `c9game` there is no hostile
anywhere (no enemies, no crabs) and the combo timer stands at 180 (one
tick only brings it to 179), yet one playing tick resets the combo
counter from 5 to 0 — the reset comes from the oxygen-depletion respawn,
a transition the claim does not list. -/
theorem C9_combo_transitions_counterexample :
    c9game.diver.comboCounter = 5 ∧ c9game.diver.comboTimer = 180 ∧
    c9game.enemies = [] ∧ c9game.crabs = [] ∧
    (tickUpdate cenv (50/3) c9game 0).1.diver.comboCounter = 0 := by
  exact ⟨rfl, rfl, rfl, rfl, by with_unfolding_all decide⟩

theorem heartMove_fall (sf : ℚ) (h : Heart) (hf : h.isFalling = true)
    (hlt : h.y + (h.dy + GRAVITY * (8/10) * sf) * sf < h.targetY) :
    heartMove sf h = { h with angle := h.angle + h.rotationSpeed * sf,
                              dy := h.dy + GRAVITY * (8/10) * sf,
                              y := h.y + (h.dy + GRAVITY * (8/10) * sf) * sf } := by
  simp only [heartMove]
  split_ifs with hb
  · exact absurd hb (not_le.2 hlt)
  · rfl

theorem heartMove_snap (sf : ℚ) (h : Heart) (hf : h.isFalling = true)
    (hge : h.y + (h.dy + GRAVITY * (8/10) * sf) * sf ≥ h.targetY) :
    heartMove sf h = { h with angle := h.angle + h.rotationSpeed * sf,
                              y := h.targetY, isFalling := false, dy := 0 } := by
  simp only [heartMove]
  split_ifs
  rfl

theorem heartMove_rest (sf : ℚ) (h : Heart) (hf : h.isFalling = false) :
    heartMove sf h = { h with angle := h.angle + h.rotationSpeed * sf } := by
  simp only [heartMove]
  split_ifs with hb hb2
  · rw [hf] at hb
    exact absurd hb Bool.false_ne_true
  · rw [hf] at hb
    exact absurd hb Bool.false_ne_true
  · rfl

theorem treasureMove_fall (sf : ℚ) (t : Treasure) (hf : t.isFalling = true)
    (hlt : t.y + (t.dy + GRAVITY * sf) * sf < t.targetY) :
    treasureMove sf t = { t with angle := t.angle + t.rotationSpeed * sf,
                                 dy := t.dy + GRAVITY * sf,
                                 y := t.y + (t.dy + GRAVITY * sf) * sf } := by
  simp only [treasureMove]
  split_ifs with hb
  · exact absurd hb (not_le.2 hlt)
  · rfl

theorem treasureMove_snap (sf : ℚ) (t : Treasure) (hf : t.isFalling = true)
    (hge : t.y + (t.dy + GRAVITY * sf) * sf ≥ t.targetY) :
    treasureMove sf t = { t with angle := t.angle + t.rotationSpeed * sf,
                                 y := t.targetY, isFalling := false, dy := 0 } := by
  simp only [treasureMove]
  split_ifs
  rfl

theorem treasureMove_rest (sf : ℚ) (t : Treasure) (hf : t.isFalling = false) :
    treasureMove sf t = { t with angle := t.angle + t.rotationSpeed * sf } := by
  simp only [treasureMove]
  split_ifs with hb hb2
  · rw [hf] at hb
    exact absurd hb Bool.false_ne_true
  · rw [hf] at hb
    exact absurd hb Bool.false_ne_true
  · rfl

theorem fallSeq_no_stop (c : ℚ) (hc : 0 < c) (y dy : ℕ → ℚ) (tY : ℚ)
    (hdy : ∀ n, dy (n + 1) = dy n + c)
    (hy : ∀ n, y (n + 1) = y n + (dy n + c) * 1)
    (hlt : ∀ n, y (n + 1) < tY) : False := by
  have hdyn : ∀ n : ℕ, dy n = dy 0 + n * c := by
    intro n
    induction n with
    | zero => simp
    | succ m ih =>
      rw [hdy m, ih]
      push_cast
      ring
  obtain ⟨N, hN⟩ := exists_nat_gt ((1 - dy 0) / c)
  have hdyN : ∀ j : ℕ, 1 < dy (N + j) := by
    intro j
    rw [hdyn (N + j)]
    have h1 : (1 - dy 0) / c < ((N + j : ℕ) : ℚ) := by
      push_cast
      have hj : (0:ℚ) ≤ (j : ℚ) := Nat.cast_nonneg j
      linarith
    have h2 : ((1 - dy 0) / c) * c < ((N + j : ℕ) : ℚ) * c :=
      mul_lt_mul_of_pos_right h1 hc
    rw [div_mul_cancel₀ _ (ne_of_gt hc)] at h2
    linarith
  have hstep : ∀ j : ℕ, y (N + j) + 1 ≤ y (N + j + 1) := by
    intro j
    rw [hy (N + j), mul_one]
    have := hdyN j
    linarith
  have hgrow : ∀ j : ℕ, y N + j ≤ y (N + j) := by
    intro j
    induction j with
    | zero => simp
    | succ m ih =>
      have h3 := hstep m
      have e : N + (m + 1) = N + m + 1 := by ring
      rw [e]
      push_cast
      linarith
  obtain ⟨J, hJ⟩ := exists_nat_gt (tY - y N)
  have hbig := hgrow (J + 1)
  have e : N + (J + 1) = N + J + 1 := by ring
  rw [e] at hbig
  push_cast at hbig
  have hsmall := hlt (N + J)
  linarith

theorem heartMove_terminates (h : Heart) :
    ∃ n, ((heartMove 1)^[n] h).isFalling = false := by
  by_contra hcon
  push_neg at hcon
  have hall : ∀ n, ((heartMove 1)^[n] h).isFalling = true := by
    intro n
    cases hb : ((heartMove 1)^[n] h).isFalling with
    | false => exact absurd hb (hcon n)
    | true => rfl
  have hfall : ∀ n, ((heartMove 1)^[n] h).y +
      (((heartMove 1)^[n] h).dy + GRAVITY * (8/10) * 1) * 1 <
      ((heartMove 1)^[n] h).targetY := by
    intro n
    rcases lt_or_le (((heartMove 1)^[n] h).y +
        (((heartMove 1)^[n] h).dy + GRAVITY * (8/10) * 1) * 1)
        (((heartMove 1)^[n] h).targetY) with hlt | hge
    · exact hlt
    · exfalso
      have hf := hall (n + 1)
      rw [Function.iterate_succ_apply',
        heartMove_snap 1 _ (hall n) hge] at hf
      exact Bool.false_ne_true hf
  have key : ∀ n, ((heartMove 1)^[n + 1] h) =
      { ((heartMove 1)^[n] h) with
          angle := ((heartMove 1)^[n] h).angle +
            ((heartMove 1)^[n] h).rotationSpeed * 1,
          dy := ((heartMove 1)^[n] h).dy + GRAVITY * (8/10) * 1,
          y := ((heartMove 1)^[n] h).y +
            (((heartMove 1)^[n] h).dy + GRAVITY * (8/10) * 1) * 1 } := by
    intro n
    rw [Function.iterate_succ_apply']
    exact heartMove_fall 1 _ (hall n) (hfall n)
  have htY : ∀ n, ((heartMove 1)^[n] h).targetY = h.targetY := by
    intro n
    induction n with
    | zero => rfl
    | succ m ih =>
      rw [key m]
      exact ih
  apply fallSeq_no_stop (GRAVITY * (8/10) * 1) (by norm_num [GRAVITY])
    (fun n => ((heartMove 1)^[n] h).y) (fun n => ((heartMove 1)^[n] h).dy)
    h.targetY
  · intro n
    rw [key n]
  · intro n
    rw [key n]
  · intro n
    have hx := hfall n
    rw [htY n] at hx
    show ((heartMove 1)^[n + 1] h).y < h.targetY
    rw [key n]
    exact hx

theorem treasureMove_terminates (t : Treasure) :
    ∃ n, ((treasureMove 1)^[n] t).isFalling = false := by
  by_contra hcon
  push_neg at hcon
  have hall : ∀ n, ((treasureMove 1)^[n] t).isFalling = true := by
    intro n
    cases hb : ((treasureMove 1)^[n] t).isFalling with
    | false => exact absurd hb (hcon n)
    | true => rfl
  have hfall : ∀ n, ((treasureMove 1)^[n] t).y +
      (((treasureMove 1)^[n] t).dy + GRAVITY * 1) * 1 <
      ((treasureMove 1)^[n] t).targetY := by
    intro n
    rcases lt_or_le (((treasureMove 1)^[n] t).y +
        (((treasureMove 1)^[n] t).dy + GRAVITY * 1) * 1)
        (((treasureMove 1)^[n] t).targetY) with hlt | hge
    · exact hlt
    · exfalso
      have hf := hall (n + 1)
      rw [Function.iterate_succ_apply',
        treasureMove_snap 1 _ (hall n) hge] at hf
      exact Bool.false_ne_true hf
  have key : ∀ n, ((treasureMove 1)^[n + 1] t) =
      { ((treasureMove 1)^[n] t) with
          angle := ((treasureMove 1)^[n] t).angle +
            ((treasureMove 1)^[n] t).rotationSpeed * 1,
          dy := ((treasureMove 1)^[n] t).dy + GRAVITY * 1,
          y := ((treasureMove 1)^[n] t).y +
            (((treasureMove 1)^[n] t).dy + GRAVITY * 1) * 1 } := by
    intro n
    rw [Function.iterate_succ_apply']
    exact treasureMove_fall 1 _ (hall n) (hfall n)
  have htY : ∀ n, ((treasureMove 1)^[n] t).targetY = t.targetY := by
    intro n
    induction n with
    | zero => rfl
    | succ m ih =>
      rw [key m]
      exact ih
  apply fallSeq_no_stop (GRAVITY * 1) (by norm_num [GRAVITY])
    (fun n => ((treasureMove 1)^[n] t).y) (fun n => ((treasureMove 1)^[n] t).dy)
    t.targetY
  · intro n
    rw [key n]
  · intro n
    rw [key n]
  · intro n
    have hx := hfall n
    rw [htY n] at hx
    show ((treasureMove 1)^[n + 1] t).y < t.targetY
    rw [key n]
    exact hx

/-- **C8.** Every falling treasure or heart settles in finitely many unit
ticks; while falling and short of the target, each tick adds the constant
gravity term to the vertical velocity (80% of it for hearts) and advances
Y by the new velocity; on reaching the precomputed resting Y the entity
snaps to exactly `targetY` with velocity zeroed and `isFalling` cleared;
and once at rest the mover never resumes the fall and never changes Y
again (removal from the collection aside). -/
theorem C8_falling_settles :
    (∀ h : Heart, ∃ n, ((heartMove 1)^[n] h).isFalling = false) ∧
    (∀ t : Treasure, ∃ n, ((treasureMove 1)^[n] t).isFalling = false) ∧
    (∀ (sf : ℚ) (h : Heart), h.isFalling = true →
      h.y + (h.dy + GRAVITY * (8/10) * sf) * sf < h.targetY →
      (heartMove sf h).dy = h.dy + GRAVITY * (8/10) * sf ∧
      (heartMove sf h).y = h.y + (h.dy + GRAVITY * (8/10) * sf) * sf ∧
      (heartMove sf h).isFalling = true) ∧
    (∀ (sf : ℚ) (h : Heart), h.isFalling = true →
      h.y + (h.dy + GRAVITY * (8/10) * sf) * sf ≥ h.targetY →
      (heartMove sf h).y = h.targetY ∧ (heartMove sf h).dy = 0 ∧
      (heartMove sf h).isFalling = false) ∧
    (∀ (sf : ℚ) (h : Heart), h.isFalling = false →
      (heartMove sf h).isFalling = false ∧ (heartMove sf h).y = h.y) ∧
    (∀ (sf : ℚ) (t : Treasure), t.isFalling = true →
      t.y + (t.dy + GRAVITY * sf) * sf < t.targetY →
      (treasureMove sf t).dy = t.dy + GRAVITY * sf ∧
      (treasureMove sf t).y = t.y + (t.dy + GRAVITY * sf) * sf ∧
      (treasureMove sf t).isFalling = true) ∧
    (∀ (sf : ℚ) (t : Treasure), t.isFalling = true →
      t.y + (t.dy + GRAVITY * sf) * sf ≥ t.targetY →
      (treasureMove sf t).y = t.targetY ∧ (treasureMove sf t).dy = 0 ∧
      (treasureMove sf t).isFalling = false) ∧
    (∀ (sf : ℚ) (t : Treasure), t.isFalling = false →
      (treasureMove sf t).isFalling = false ∧ (treasureMove sf t).y = t.y) := by
  refine ⟨heartMove_terminates, treasureMove_terminates, ?_, ?_, ?_, ?_, ?_, ?_⟩
  · intro sf h hf hlt
    rw [heartMove_fall sf h hf hlt]
    exact ⟨rfl, rfl, hf⟩
  · intro sf h hf hge
    rw [heartMove_snap sf h hf hge]
    exact ⟨rfl, rfl, rfl⟩
  · intro sf h hf
    rw [heartMove_rest sf h hf]
    exact ⟨hf, rfl⟩
  · intro sf t hf hlt
    rw [treasureMove_fall sf t hf hlt]
    exact ⟨rfl, rfl, hf⟩
  · intro sf t hf hge
    rw [treasureMove_snap sf t hf hge]
    exact ⟨rfl, rfl, rfl⟩
  · intro sf t hf
    rw [treasureMove_rest sf t hf]
    exact ⟨hf, rfl⟩

end SeaExplorer
